import Mathlib

/-!
# Magnum `Implementation::FramebufferState`

A shallow embedding of `src/Magnum/Implementation/FramebufferState.cpp`: the
constructor that fills the framebuffer dispatch table from the extensions the
context reports, and `reset()`.

The preprocessor conditionals of the source become ordinary conditionals over
a `Platform` value; the function pointers become values of an enumeration of
the member functions the source names; the `std::vector<std::string>&` that
collects the extensions in use becomes a list that is passed in and returned.
-/

namespace Magnum

/-! ## Build configuration -/

/-- The three build configurations the source distinguishes: neither
`MAGNUM_TARGET_GLES` nor `MAGNUM_TARGET_GLES2` defined (desktop GL), only
`MAGNUM_TARGET_GLES` defined (OpenGL ES 3), both defined (OpenGL ES 2). -/
inductive Platform
  | desktop
  | gles3
  | gles2
  deriving DecidableEq, Repr

/-- Whether `MAGNUM_TARGET_GLES` is defined. -/
def Platform.TARGET_GLES : Platform → Bool
  | .desktop => false
  | .gles3 => true
  | .gles2 => true

/-- Whether `MAGNUM_TARGET_GLES2` is defined. -/
def Platform.TARGET_GLES2 : Platform → Bool
  | .desktop => false
  | .gles3 => false
  | .gles2 => true

/-! ## Extensions and the context -/

/-- The extension types of `Magnum/Extensions.h` (namespace `Extensions::GL`)
that the constructor names, `ARB_direct_state_access` standing for
`Extensions::GL::ARB::direct_state_access` and so on. `other n` stands for any
further extension of that header, which the constructor never names. -/
inductive Extension
  | ARB_direct_state_access
  | EXT_direct_state_access
  | ARB_robustness
  | EXT_robustness
  | ARB_invalidate_subdata
  | EXT_discard_framebuffer
  | ANGLE_framebuffer_blit
  | ANGLE_framebuffer_multisample
  | APPLE_framebuffer_multisample
  | NV_framebuffer_blit
  | NV_framebuffer_multisample
  | other (n : Nat)
  deriving DecidableEq, Repr

/-- The part of `Magnum::Context` the constructor uses: the answer of
`context.isExtensionSupported<E>()` for each extension `E`. -/
structure Context where
  isExtensionSupported : Extension → Bool

/-- The `std::vector<std::string>& extensions` argument. An entry `E` records
one `extensions.push_back(E::string())`. -/
abbrev Registry := List Extension

/-! ## Dispatch slots -/

/-- The member functions whose addresses the constructor stores, each named
as the source writes it (`Framebuffer_createImplementationDSA` is
`&Framebuffer::createImplementationDSA`). -/
inductive Impl
  | Framebuffer_createImplementationDSA
  | Framebuffer_createImplementationDefault
  | Renderbuffer_createImplementationDSA
  | Renderbuffer_createImplementationDefault
  | AbstractFramebuffer_checkStatusImplementationDSA
  | AbstractFramebuffer_checkStatusImplementationDSAEXT
  | AbstractFramebuffer_checkStatusImplementationDefault
  | AbstractFramebuffer_drawBuffersImplementationDSA
  | AbstractFramebuffer_drawBuffersImplementationDSAEXT
  | AbstractFramebuffer_drawBuffersImplementationDefault
  | AbstractFramebuffer_drawBufferImplementationDSA
  | AbstractFramebuffer_drawBufferImplementationDSAEXT
  | AbstractFramebuffer_drawBufferImplementationDefault
  | AbstractFramebuffer_readBufferImplementationDSA
  | AbstractFramebuffer_readBufferImplementationDSAEXT
  | AbstractFramebuffer_readBufferImplementationDefault
  | Framebuffer_renderbufferImplementationDSA
  | Framebuffer_renderbufferImplementationDSAEXT
  | Framebuffer_renderbufferImplementationDefault
  | Framebuffer_texture1DImplementationDSA
  | Framebuffer_texture1DImplementationDSAEXT
  | Framebuffer_texture1DImplementationDefault
  | Framebuffer_texture2DImplementationDSA
  | Framebuffer_texture2DImplementationDSAEXT
  | Framebuffer_texture2DImplementationDefault
  | Framebuffer_textureLayerImplementationDSA
  | Framebuffer_textureLayerImplementationDSAEXT
  | Framebuffer_textureLayerImplementationDefault
  | Renderbuffer_storageImplementationDSA
  | Renderbuffer_storageImplementationDSAEXT
  | Renderbuffer_storageImplementationDefault
  | Framebuffer_bindImplementationDefault
  | Framebuffer_bindImplementationSingle
  | Framebuffer_checkStatusImplementationDefault
  | Framebuffer_checkStatusImplementationSingle
  | AbstractFramebuffer_readImplementationRobustness
  | AbstractFramebuffer_readImplementationDefault
  | Renderbuffer_storageMultisampleImplementationDSA
  | Renderbuffer_storageMultisampleImplementationDSAEXT
  | Renderbuffer_storageMultisampleImplementationANGLE
  | Renderbuffer_storageMultisampleImplementationNV
  | Renderbuffer_storageMultisampleImplementationDefault
  | AbstractFramebuffer_invalidateImplementationDSA
  | AbstractFramebuffer_invalidateImplementationDefault
  | AbstractFramebuffer_invalidateImplementationNoOp
  | AbstractFramebuffer_blitImplementationDSA
  | AbstractFramebuffer_blitImplementationDefault
  | AbstractFramebuffer_blitImplementationANGLE
  | AbstractFramebuffer_blitImplementationNV
  deriving DecidableEq, Repr

/-- The content of one function-pointer member: `unassigned` while the
constructor has not stored anything in it, `null` after `= nullptr`, `fn f`
after `= &f`. -/
inductive Slot
  | unassigned
  | null
  | fn (f : Impl)
  deriving DecidableEq, Repr

/-- A slot that holds the address of a function. -/
def Slot.isFunction : Slot → Bool
  | .fn _ => true
  | _ => false

/-- A slot the constructor has stored something in, a function or `nullptr`. -/
def Slot.isAssigned : Slot → Bool
  | .unassigned => false
  | _ => true

/-! ## The state record -/

/-- The type `Range2Di`: a rectangle with integer corners. -/
structure Range2Di where
  minX : Int
  minY : Int
  maxX : Int
  maxY : Int
  deriving DecidableEq, Repr

/-- The constants the source takes from headers that are not part of the
sources at hand: `State::DisengagedBinding` (a `GLuint`) from `State.h` and
`FramebufferState::DisengagedViewport` from `FramebufferState.h`. -/
structure Constants where
  DisengagedBinding : Nat
  DisengagedViewport : Range2Di
  deriving DecidableEq, Repr

/-- The members of `Implementation::FramebufferState` the source touches.
`maxDualSourceDrawBuffers` is `none` where the member initialiser is compiled
out. -/
structure FramebufferState where
  createImplementation : Slot
  createRenderbufferImplementation : Slot
  checkStatusImplementation : Slot
  drawBuffersImplementation : Slot
  drawBufferImplementation : Slot
  readBufferImplementation : Slot
  renderbufferImplementation : Slot
  texture1DImplementation : Slot
  texture2DImplementation : Slot
  textureLayerImplementation : Slot
  renderbufferStorageImplementation : Slot
  renderbufferStorageMultisampleImplementation : Slot
  readImplementation : Slot
  invalidateImplementation : Slot
  invalidateSubImplementation : Slot
  blitImplementation : Slot
  bindImplementation : Slot
  bindInternalImplementation : Slot
  readBinding : Nat
  drawBinding : Nat
  renderbufferBinding : Nat
  maxDrawBuffers : Int
  maxColorAttachments : Int
  maxRenderbufferSize : Int
  maxSamples : Int
  maxDualSourceDrawBuffers : Option Int
  viewport : Range2Di
  deriving DecidableEq, Repr

/-! ## The constructor

Each definition below is one commented section of the constructor body, in
source order. A section takes the members as they stand and the registry as it
stands and gives both back. A conditional of the form
`#ifndef MAGNUM_TARGET_GLES if(c) {A} else #endif {B}` runs `A` on desktop
when `c` holds and `B` in every other case, which is
`if !p.TARGET_GLES && c then A else B`. -/

/-- The member initialiser list (lines 38-42). The function-pointer members
have no initialiser. -/
def FramebufferState.initial (p : Platform) (k : Constants) : FramebufferState where
  createImplementation := .unassigned
  createRenderbufferImplementation := .unassigned
  checkStatusImplementation := .unassigned
  drawBuffersImplementation := .unassigned
  drawBufferImplementation := .unassigned
  readBufferImplementation := .unassigned
  renderbufferImplementation := .unassigned
  texture1DImplementation := .unassigned
  texture2DImplementation := .unassigned
  textureLayerImplementation := .unassigned
  renderbufferStorageImplementation := .unassigned
  renderbufferStorageMultisampleImplementation := .unassigned
  readImplementation := .unassigned
  invalidateImplementation := .unassigned
  invalidateSubImplementation := .unassigned
  blitImplementation := .unassigned
  bindImplementation := .unassigned
  bindInternalImplementation := .unassigned
  readBinding := 0
  drawBinding := 0
  renderbufferBinding := 0
  maxDrawBuffers := 0
  maxColorAttachments := 0
  maxRenderbufferSize := 0
  maxSamples := 0
  maxDualSourceDrawBuffers := if !p.TARGET_GLES then some 0 else none
  viewport := k.DisengagedViewport

/-- Section "Create implementation" (lines 44-56). -/
def createSection (p : Platform) (context : Context)
    (s : FramebufferState) (extensions : Registry) : FramebufferState × Registry :=
  if !p.TARGET_GLES && context.isExtensionSupported .ARB_direct_state_access then
    ({ s with
        createImplementation := .fn .Framebuffer_createImplementationDSA
        createRenderbufferImplementation := .fn .Renderbuffer_createImplementationDSA },
     extensions ++ [.ARB_direct_state_access])
  else
    ({ s with
        createImplementation := .fn .Framebuffer_createImplementationDefault
        createRenderbufferImplementation := .fn .Renderbuffer_createImplementationDefault },
     extensions)

/-- Section "DSA/non-DSA implementation" (lines 58-105). -/
def dsaSection (p : Platform) (context : Context)
    (s : FramebufferState) (extensions : Registry) : FramebufferState × Registry :=
  if !p.TARGET_GLES && context.isExtensionSupported .ARB_direct_state_access then
    ({ s with
        checkStatusImplementation := .fn .AbstractFramebuffer_checkStatusImplementationDSA
        drawBuffersImplementation := .fn .AbstractFramebuffer_drawBuffersImplementationDSA
        drawBufferImplementation := .fn .AbstractFramebuffer_drawBufferImplementationDSA
        readBufferImplementation := .fn .AbstractFramebuffer_readBufferImplementationDSA
        renderbufferImplementation := .fn .Framebuffer_renderbufferImplementationDSA
        texture1DImplementation := .fn .Framebuffer_texture1DImplementationDSA
        texture2DImplementation := .fn .Framebuffer_texture2DImplementationDSA
        textureLayerImplementation := .fn .Framebuffer_textureLayerImplementationDSA
        renderbufferStorageImplementation := .fn .Renderbuffer_storageImplementationDSA },
     extensions)
  else if !p.TARGET_GLES && context.isExtensionSupported .EXT_direct_state_access then
    ({ s with
        checkStatusImplementation := .fn .AbstractFramebuffer_checkStatusImplementationDSAEXT
        drawBuffersImplementation := .fn .AbstractFramebuffer_drawBuffersImplementationDSAEXT
        drawBufferImplementation := .fn .AbstractFramebuffer_drawBufferImplementationDSAEXT
        readBufferImplementation := .fn .AbstractFramebuffer_readBufferImplementationDSAEXT
        renderbufferImplementation := .fn .Framebuffer_renderbufferImplementationDSAEXT
        texture1DImplementation := .fn .Framebuffer_texture1DImplementationDSAEXT
        texture2DImplementation := .fn .Framebuffer_texture2DImplementationDSAEXT
        textureLayerImplementation := .fn .Framebuffer_textureLayerImplementationDSAEXT
        renderbufferStorageImplementation := .fn .Renderbuffer_storageImplementationDSAEXT },
     extensions ++ [.EXT_direct_state_access])
  else
    ({ s with
        checkStatusImplementation := .fn .AbstractFramebuffer_checkStatusImplementationDefault
        drawBuffersImplementation := .fn .AbstractFramebuffer_drawBuffersImplementationDefault
        drawBufferImplementation := .fn .AbstractFramebuffer_drawBufferImplementationDefault
        readBufferImplementation := .fn .AbstractFramebuffer_readBufferImplementationDefault
        renderbufferImplementation := .fn .Framebuffer_renderbufferImplementationDefault
        texture1DImplementation :=
          if !p.TARGET_GLES then .fn .Framebuffer_texture1DImplementationDefault
          else s.texture1DImplementation
        texture2DImplementation := .fn .Framebuffer_texture2DImplementationDefault
        textureLayerImplementation := .fn .Framebuffer_textureLayerImplementationDefault
        renderbufferStorageImplementation := .fn .Renderbuffer_storageImplementationDefault },
     extensions)

/-- Section "Framebuffer binding and checking on ES2" (lines 107-137): the three
members are first set to the separate-target functions, and set again to the
single-target ones when none of the four extensions is supported. -/
def bindSection (p : Platform) (context : Context)
    (s : FramebufferState) (extensions : Registry) : FramebufferState × Registry :=
  if p.TARGET_GLES2 then
    let s1 : FramebufferState := { s with
      bindImplementation := .fn .Framebuffer_bindImplementationDefault
      bindInternalImplementation := .fn .Framebuffer_bindImplementationDefault
      checkStatusImplementation := .fn .Framebuffer_checkStatusImplementationDefault }
    if context.isExtensionSupported .ANGLE_framebuffer_blit then
      (s1, extensions ++ [.ANGLE_framebuffer_blit])
    else if context.isExtensionSupported .APPLE_framebuffer_multisample then
      (s1, extensions ++ [.APPLE_framebuffer_multisample])
    else if context.isExtensionSupported .NV_framebuffer_blit then
      (s1, extensions ++ [.NV_framebuffer_blit])
    else if context.isExtensionSupported .NV_framebuffer_multisample then
      (s1, extensions ++ [.NV_framebuffer_multisample])
    else
      ({ s1 with
          bindImplementation := .fn .Framebuffer_bindImplementationSingle
          bindInternalImplementation := .fn .Framebuffer_bindImplementationSingle
          checkStatusImplementation := .fn .Framebuffer_checkStatusImplementationSingle },
       extensions)
  else
    (s, extensions)

/-- Section "Framebuffer reading implementation" (lines 139-153). -/
def readSection (p : Platform) (context : Context)
    (s : FramebufferState) (extensions : Registry) : FramebufferState × Registry :=
  if (if !p.TARGET_GLES then context.isExtensionSupported .ARB_robustness
      else context.isExtensionSupported .EXT_robustness) then
    ({ s with readImplementation := .fn .AbstractFramebuffer_readImplementationRobustness },
     extensions ++ [if !p.TARGET_GLES then .ARB_robustness else .EXT_robustness])
  else
    ({ s with readImplementation := .fn .AbstractFramebuffer_readImplementationDefault },
     extensions)

/-- Section "Multisample renderbuffer storage implementation" (lines 155-182). -/
def storageMultisampleSection (p : Platform) (context : Context)
    (s : FramebufferState) (extensions : Registry) : FramebufferState × Registry :=
  if !p.TARGET_GLES && context.isExtensionSupported .ARB_direct_state_access then
    ({ s with renderbufferStorageMultisampleImplementation := .fn .Renderbuffer_storageMultisampleImplementationDSA }, extensions)
  else if !p.TARGET_GLES && context.isExtensionSupported .EXT_direct_state_access then
    ({ s with renderbufferStorageMultisampleImplementation := .fn .Renderbuffer_storageMultisampleImplementationDSAEXT }, extensions)
  else if p.TARGET_GLES2 then
    if context.isExtensionSupported .ANGLE_framebuffer_multisample then
      ({ s with renderbufferStorageMultisampleImplementation := .fn .Renderbuffer_storageMultisampleImplementationANGLE },
       extensions ++ [.ANGLE_framebuffer_multisample])
    else if context.isExtensionSupported .NV_framebuffer_multisample then
      ({ s with renderbufferStorageMultisampleImplementation := .fn .Renderbuffer_storageMultisampleImplementationNV },
       extensions ++ [.NV_framebuffer_multisample])
    else
      ({ s with renderbufferStorageMultisampleImplementation := .null }, extensions)
  else
    ({ s with renderbufferStorageMultisampleImplementation := .fn .Renderbuffer_storageMultisampleImplementationDefault }, extensions)

/-- Section "Framebuffer invalidation implementation" (lines 184-217). -/
def invalidateSection (p : Platform) (context : Context)
    (s : FramebufferState) (extensions : Registry) : FramebufferState × Registry :=
  if !p.TARGET_GLES then
    if context.isExtensionSupported .ARB_invalidate_subdata then
      if context.isExtensionSupported .ARB_direct_state_access then
        ({ s with
            invalidateImplementation := .fn .AbstractFramebuffer_invalidateImplementationDSA
            invalidateSubImplementation := .fn .AbstractFramebuffer_invalidateImplementationDSA },
         extensions ++ [.ARB_invalidate_subdata])
      else
        ({ s with
            invalidateImplementation := .fn .AbstractFramebuffer_invalidateImplementationDefault
            invalidateSubImplementation := .fn .AbstractFramebuffer_invalidateImplementationDefault },
         extensions ++ [.ARB_invalidate_subdata])
    else
      ({ s with
          invalidateImplementation := .fn .AbstractFramebuffer_invalidateImplementationNoOp
          invalidateSubImplementation := .fn .AbstractFramebuffer_invalidateImplementationNoOp },
       extensions)
  else if p.TARGET_GLES2 then
    if context.isExtensionSupported .EXT_discard_framebuffer then
      ({ s with
          invalidateImplementation := .fn .AbstractFramebuffer_invalidateImplementationDefault },
       extensions ++ [.EXT_discard_framebuffer])
    else
      ({ s with
          invalidateImplementation := .fn .AbstractFramebuffer_invalidateImplementationNoOp },
       extensions)
  else
    ({ s with
        invalidateImplementation := .fn .AbstractFramebuffer_invalidateImplementationDefault
        invalidateSubImplementation := .fn .AbstractFramebuffer_invalidateImplementationDefault },
     extensions)

/-- Section "Blit implementation" (lines 219-242). -/
def blitSection (p : Platform) (context : Context)
    (s : FramebufferState) (extensions : Registry) : FramebufferState × Registry :=
  if !p.TARGET_GLES then
    if context.isExtensionSupported .ARB_direct_state_access then
      ({ s with blitImplementation := .fn .AbstractFramebuffer_blitImplementationDSA },
       extensions)
    else
      ({ s with blitImplementation := .fn .AbstractFramebuffer_blitImplementationDefault },
       extensions)
  else if p.TARGET_GLES2 then
    if context.isExtensionSupported .ANGLE_framebuffer_blit then
      ({ s with blitImplementation := .fn .AbstractFramebuffer_blitImplementationANGLE },
       extensions ++ [.ANGLE_framebuffer_blit])
    else if context.isExtensionSupported .NV_framebuffer_blit then
      ({ s with blitImplementation := .fn .AbstractFramebuffer_blitImplementationNV },
       extensions ++ [.NV_framebuffer_blit])
    else
      ({ s with blitImplementation := .null }, extensions)
  else
    ({ s with blitImplementation := .fn .AbstractFramebuffer_blitImplementationDefault },
     extensions)

/-- The constructor `FramebufferState::FramebufferState(Context&,
std::vector<std::string>&)` (lines 38-243): the initialiser list, then the
seven sections in order. The result is the constructed object and the registry
as the constructor leaves it. -/
def FramebufferState.construct (p : Platform) (k : Constants) (context : Context)
    (extensions : Registry) : FramebufferState × Registry :=
  let r0 := (FramebufferState.initial p k, extensions)
  let r1 := createSection p context r0.1 r0.2
  let r2 := dsaSection p context r1.1 r1.2
  let r3 := bindSection p context r2.1 r2.2
  let r4 := readSection p context r3.1 r3.2
  let r5 := storageMultisampleSection p context r4.1 r4.2
  let r6 := invalidateSection p context r5.1 r5.2
  blitSection p context r6.1 r6.2

/-- The method `FramebufferState::reset()` (lines 245-248). -/
def FramebufferState.reset (k : Constants) (s : FramebufferState) : FramebufferState :=
  { s with
    readBinding := k.DisengagedBinding
    drawBinding := k.DisengagedBinding
    renderbufferBinding := k.DisengagedBinding
    viewport := k.DisengagedViewport }

/-! ## Reading the registry -/

/-- The first extension of a priority list that the context reports as
supported, if there is one. -/
def firstSupported (context : Context) (tiers : List Extension) : Option Extension :=
  tiers.find? context.isExtensionSupported

/-- What a run of the constructor added to the registry: the entries after
the ones that were there before. -/
def appended (p : Platform) (k : Constants) (context : Context)
    (extensions : Registry) : Registry :=
  (FramebufferState.construct p k context extensions).2.drop extensions.length

/-- The nine members the "DSA/non-DSA implementation" section stores
together (lines 63-73), in source order. -/
def FramebufferState.dsaGroup (s : FramebufferState) : List Slot :=
  [s.checkStatusImplementation, s.drawBuffersImplementation, s.drawBufferImplementation,
   s.readBufferImplementation, s.renderbufferImplementation, s.texture1DImplementation,
   s.texture2DImplementation, s.textureLayerImplementation,
   s.renderbufferStorageImplementation]

/-- All eighteen function-pointer members. -/
def FramebufferState.slots (s : FramebufferState) : List Slot :=
  [s.createImplementation, s.createRenderbufferImplementation, s.checkStatusImplementation,
   s.drawBuffersImplementation, s.drawBufferImplementation, s.readBufferImplementation,
   s.renderbufferImplementation, s.texture1DImplementation, s.texture2DImplementation,
   s.textureLayerImplementation, s.renderbufferStorageImplementation,
   s.renderbufferStorageMultisampleImplementation, s.readImplementation,
   s.invalidateImplementation, s.invalidateSubImplementation, s.blitImplementation,
   s.bindImplementation, s.bindInternalImplementation]

/-- The extensions the constructor asks the context about on each platform:
the arguments of the `isExtensionSupported` calls that are compiled in. -/
def consulted : Platform → List Extension
  | .desktop =>
    [.ARB_direct_state_access, .EXT_direct_state_access, .ARB_robustness,
     .ARB_invalidate_subdata]
  | .gles3 => [.EXT_robustness]
  | .gles2 =>
    [.ANGLE_framebuffer_blit, .APPLE_framebuffer_multisample, .NV_framebuffer_blit,
     .NV_framebuffer_multisample, .EXT_robustness, .ANGLE_framebuffer_multisample,
     .EXT_discard_framebuffer]

/-- A context that supports exactly the listed extensions. -/
def Context.ofList (l : List Extension) : Context :=
  ⟨fun e => decide (e ∈ l)⟩

/-- Sample values for the header constants: `~0u` as a 32-bit `GLuint` and a
rectangle with a negative far corner. -/
def sampleConstants : Constants :=
  ⟨4294967295, ⟨0, 0, -1, -1⟩⟩

/-! ## What each section does to the registry -/

theorem createSection_snd (p : Platform) (context : Context) (s : FramebufferState)
    (extensions : Registry) :
    (createSection p context s extensions).2 = extensions ++
      if !p.TARGET_GLES && context.isExtensionSupported .ARB_direct_state_access
      then [.ARB_direct_state_access] else [] := by
  unfold createSection
  split_ifs <;> simp

theorem dsaSection_snd (p : Platform) (context : Context) (s : FramebufferState)
    (extensions : Registry) :
    (dsaSection p context s extensions).2 = extensions ++
      if !p.TARGET_GLES && context.isExtensionSupported .ARB_direct_state_access then []
      else if !p.TARGET_GLES && context.isExtensionSupported .EXT_direct_state_access
      then [.EXT_direct_state_access] else [] := by
  unfold dsaSection
  split_ifs <;> simp

theorem bindSection_snd (p : Platform) (context : Context) (s : FramebufferState)
    (extensions : Registry) :
    (bindSection p context s extensions).2 = extensions ++
      if p.TARGET_GLES2 then
        (firstSupported context [.ANGLE_framebuffer_blit, .APPLE_framebuffer_multisample,
          .NV_framebuffer_blit, .NV_framebuffer_multisample]).toList
      else [] := by
  unfold bindSection firstSupported
  split_ifs <;> simp [List.find?, *]

theorem readSection_snd (p : Platform) (context : Context) (s : FramebufferState)
    (extensions : Registry) :
    (readSection p context s extensions).2 = extensions ++
      if !p.TARGET_GLES then
        (if context.isExtensionSupported .ARB_robustness then [.ARB_robustness] else [])
      else
        (if context.isExtensionSupported .EXT_robustness then [.EXT_robustness] else []) := by
  unfold readSection
  split_ifs <;> simp_all

theorem storageMultisampleSection_snd (p : Platform) (context : Context)
    (s : FramebufferState) (extensions : Registry) :
    (storageMultisampleSection p context s extensions).2 = extensions ++
      if !p.TARGET_GLES && context.isExtensionSupported .ARB_direct_state_access then []
      else if !p.TARGET_GLES && context.isExtensionSupported .EXT_direct_state_access then []
      else if p.TARGET_GLES2 then
        (firstSupported context
          [.ANGLE_framebuffer_multisample, .NV_framebuffer_multisample]).toList
      else [] := by
  unfold storageMultisampleSection firstSupported
  split_ifs <;> simp [List.find?, *]

theorem invalidateSection_snd (p : Platform) (context : Context) (s : FramebufferState)
    (extensions : Registry) :
    (invalidateSection p context s extensions).2 = extensions ++
      if !p.TARGET_GLES then
        (if context.isExtensionSupported .ARB_invalidate_subdata
         then [.ARB_invalidate_subdata] else [])
      else if p.TARGET_GLES2 then
        (if context.isExtensionSupported .EXT_discard_framebuffer
         then [.EXT_discard_framebuffer] else [])
      else [] := by
  unfold invalidateSection
  split_ifs <;> simp

theorem blitSection_snd (p : Platform) (context : Context) (s : FramebufferState)
    (extensions : Registry) :
    (blitSection p context s extensions).2 = extensions ++
      if !p.TARGET_GLES then []
      else if p.TARGET_GLES2 then
        (firstSupported context [.ANGLE_framebuffer_blit, .NV_framebuffer_blit]).toList
      else [] := by
  unfold blitSection firstSupported
  split_ifs <;> simp [List.find?, *]

/-- The registry the constructor leaves is the one it was given followed by
what the seven sections push, section by section. -/
theorem construct_snd (p : Platform) (k : Constants) (context : Context)
    (extensions : Registry) :
    (FramebufferState.construct p k context extensions).2 = extensions ++
      ((createSection p context (FramebufferState.initial p k) []).2
        ++ (dsaSection p context (FramebufferState.initial p k) []).2
        ++ (bindSection p context (FramebufferState.initial p k) []).2
        ++ (readSection p context (FramebufferState.initial p k) []).2
        ++ (storageMultisampleSection p context (FramebufferState.initial p k) []).2
        ++ (invalidateSection p context (FramebufferState.initial p k) []).2
        ++ (blitSection p context (FramebufferState.initial p k) []).2) := by
  simp only [FramebufferState.construct, createSection_snd, dsaSection_snd, bindSection_snd,
    readSection_snd, storageMultisampleSection_snd, invalidateSection_snd, blitSection_snd,
    List.append_assoc, List.nil_append]

theorem appended_eq (p : Platform) (k : Constants) (context : Context)
    (extensions : Registry) :
    appended p k context extensions = (FramebufferState.construct p k context []).2 := by
  unfold appended
  rw [construct_snd p k context extensions, construct_snd p k context []]
  simp

/-! ## The constructed members, platform by platform -/

theorem construct_fst_desktop (k : Constants) (context : Context) (extensions : Registry) :
    (FramebufferState.construct .desktop k context extensions).1 =
      { createImplementation :=
          if context.isExtensionSupported .ARB_direct_state_access
          then .fn .Framebuffer_createImplementationDSA
          else .fn .Framebuffer_createImplementationDefault
        createRenderbufferImplementation :=
          if context.isExtensionSupported .ARB_direct_state_access
          then .fn .Renderbuffer_createImplementationDSA
          else .fn .Renderbuffer_createImplementationDefault
        checkStatusImplementation :=
          if context.isExtensionSupported .ARB_direct_state_access
          then .fn .AbstractFramebuffer_checkStatusImplementationDSA
          else if context.isExtensionSupported .EXT_direct_state_access
          then .fn .AbstractFramebuffer_checkStatusImplementationDSAEXT
          else .fn .AbstractFramebuffer_checkStatusImplementationDefault
        drawBuffersImplementation :=
          if context.isExtensionSupported .ARB_direct_state_access
          then .fn .AbstractFramebuffer_drawBuffersImplementationDSA
          else if context.isExtensionSupported .EXT_direct_state_access
          then .fn .AbstractFramebuffer_drawBuffersImplementationDSAEXT
          else .fn .AbstractFramebuffer_drawBuffersImplementationDefault
        drawBufferImplementation :=
          if context.isExtensionSupported .ARB_direct_state_access
          then .fn .AbstractFramebuffer_drawBufferImplementationDSA
          else if context.isExtensionSupported .EXT_direct_state_access
          then .fn .AbstractFramebuffer_drawBufferImplementationDSAEXT
          else .fn .AbstractFramebuffer_drawBufferImplementationDefault
        readBufferImplementation :=
          if context.isExtensionSupported .ARB_direct_state_access
          then .fn .AbstractFramebuffer_readBufferImplementationDSA
          else if context.isExtensionSupported .EXT_direct_state_access
          then .fn .AbstractFramebuffer_readBufferImplementationDSAEXT
          else .fn .AbstractFramebuffer_readBufferImplementationDefault
        renderbufferImplementation :=
          if context.isExtensionSupported .ARB_direct_state_access
          then .fn .Framebuffer_renderbufferImplementationDSA
          else if context.isExtensionSupported .EXT_direct_state_access
          then .fn .Framebuffer_renderbufferImplementationDSAEXT
          else .fn .Framebuffer_renderbufferImplementationDefault
        texture1DImplementation :=
          if context.isExtensionSupported .ARB_direct_state_access
          then .fn .Framebuffer_texture1DImplementationDSA
          else if context.isExtensionSupported .EXT_direct_state_access
          then .fn .Framebuffer_texture1DImplementationDSAEXT
          else .fn .Framebuffer_texture1DImplementationDefault
        texture2DImplementation :=
          if context.isExtensionSupported .ARB_direct_state_access
          then .fn .Framebuffer_texture2DImplementationDSA
          else if context.isExtensionSupported .EXT_direct_state_access
          then .fn .Framebuffer_texture2DImplementationDSAEXT
          else .fn .Framebuffer_texture2DImplementationDefault
        textureLayerImplementation :=
          if context.isExtensionSupported .ARB_direct_state_access
          then .fn .Framebuffer_textureLayerImplementationDSA
          else if context.isExtensionSupported .EXT_direct_state_access
          then .fn .Framebuffer_textureLayerImplementationDSAEXT
          else .fn .Framebuffer_textureLayerImplementationDefault
        renderbufferStorageImplementation :=
          if context.isExtensionSupported .ARB_direct_state_access
          then .fn .Renderbuffer_storageImplementationDSA
          else if context.isExtensionSupported .EXT_direct_state_access
          then .fn .Renderbuffer_storageImplementationDSAEXT
          else .fn .Renderbuffer_storageImplementationDefault
        renderbufferStorageMultisampleImplementation :=
          if context.isExtensionSupported .ARB_direct_state_access
          then .fn .Renderbuffer_storageMultisampleImplementationDSA
          else if context.isExtensionSupported .EXT_direct_state_access
          then .fn .Renderbuffer_storageMultisampleImplementationDSAEXT
          else .fn .Renderbuffer_storageMultisampleImplementationDefault
        readImplementation :=
          if context.isExtensionSupported .ARB_robustness
          then .fn .AbstractFramebuffer_readImplementationRobustness
          else .fn .AbstractFramebuffer_readImplementationDefault
        invalidateImplementation :=
          if context.isExtensionSupported .ARB_invalidate_subdata then
            if context.isExtensionSupported .ARB_direct_state_access
            then .fn .AbstractFramebuffer_invalidateImplementationDSA
            else .fn .AbstractFramebuffer_invalidateImplementationDefault
          else .fn .AbstractFramebuffer_invalidateImplementationNoOp
        invalidateSubImplementation :=
          if context.isExtensionSupported .ARB_invalidate_subdata then
            if context.isExtensionSupported .ARB_direct_state_access
            then .fn .AbstractFramebuffer_invalidateImplementationDSA
            else .fn .AbstractFramebuffer_invalidateImplementationDefault
          else .fn .AbstractFramebuffer_invalidateImplementationNoOp
        blitImplementation :=
          if context.isExtensionSupported .ARB_direct_state_access
          then .fn .AbstractFramebuffer_blitImplementationDSA
          else .fn .AbstractFramebuffer_blitImplementationDefault
        bindImplementation := .unassigned
        bindInternalImplementation := .unassigned
        readBinding := 0
        drawBinding := 0
        renderbufferBinding := 0
        maxDrawBuffers := 0
        maxColorAttachments := 0
        maxRenderbufferSize := 0
        maxSamples := 0
        maxDualSourceDrawBuffers := some 0
        viewport := k.DisengagedViewport } := by
  cases h1 : context.isExtensionSupported .ARB_direct_state_access <;>
  cases h2 : context.isExtensionSupported .EXT_direct_state_access <;>
  cases h3 : context.isExtensionSupported .ARB_robustness <;>
  cases h4 : context.isExtensionSupported .ARB_invalidate_subdata <;>
  simp [FramebufferState.construct, FramebufferState.initial, createSection, dsaSection,
    bindSection, readSection, storageMultisampleSection, invalidateSection, blitSection,
    Platform.TARGET_GLES, Platform.TARGET_GLES2, h1, h2, h3, h4]

theorem construct_fst_gles3 (k : Constants) (context : Context) (extensions : Registry) :
    (FramebufferState.construct .gles3 k context extensions).1 =
      { createImplementation := .fn .Framebuffer_createImplementationDefault
        createRenderbufferImplementation := .fn .Renderbuffer_createImplementationDefault
        checkStatusImplementation := .fn .AbstractFramebuffer_checkStatusImplementationDefault
        drawBuffersImplementation := .fn .AbstractFramebuffer_drawBuffersImplementationDefault
        drawBufferImplementation := .fn .AbstractFramebuffer_drawBufferImplementationDefault
        readBufferImplementation := .fn .AbstractFramebuffer_readBufferImplementationDefault
        renderbufferImplementation := .fn .Framebuffer_renderbufferImplementationDefault
        texture1DImplementation := .unassigned
        texture2DImplementation := .fn .Framebuffer_texture2DImplementationDefault
        textureLayerImplementation := .fn .Framebuffer_textureLayerImplementationDefault
        renderbufferStorageImplementation := .fn .Renderbuffer_storageImplementationDefault
        renderbufferStorageMultisampleImplementation :=
          .fn .Renderbuffer_storageMultisampleImplementationDefault
        readImplementation :=
          if context.isExtensionSupported .EXT_robustness
          then .fn .AbstractFramebuffer_readImplementationRobustness
          else .fn .AbstractFramebuffer_readImplementationDefault
        invalidateImplementation := .fn .AbstractFramebuffer_invalidateImplementationDefault
        invalidateSubImplementation := .fn .AbstractFramebuffer_invalidateImplementationDefault
        blitImplementation := .fn .AbstractFramebuffer_blitImplementationDefault
        bindImplementation := .unassigned
        bindInternalImplementation := .unassigned
        readBinding := 0
        drawBinding := 0
        renderbufferBinding := 0
        maxDrawBuffers := 0
        maxColorAttachments := 0
        maxRenderbufferSize := 0
        maxSamples := 0
        maxDualSourceDrawBuffers := none
        viewport := k.DisengagedViewport } := by
  cases h1 : context.isExtensionSupported .EXT_robustness <;>
  simp [FramebufferState.construct, FramebufferState.initial, createSection, dsaSection,
    bindSection, readSection, storageMultisampleSection, invalidateSection, blitSection,
    Platform.TARGET_GLES, Platform.TARGET_GLES2, h1]

theorem construct_fst_gles2 (k : Constants) (context : Context) (extensions : Registry) :
    (FramebufferState.construct .gles2 k context extensions).1 =
      { createImplementation := .fn .Framebuffer_createImplementationDefault
        createRenderbufferImplementation := .fn .Renderbuffer_createImplementationDefault
        checkStatusImplementation :=
          if context.isExtensionSupported .ANGLE_framebuffer_blit
            || context.isExtensionSupported .APPLE_framebuffer_multisample
            || context.isExtensionSupported .NV_framebuffer_blit
            || context.isExtensionSupported .NV_framebuffer_multisample
          then .fn .Framebuffer_checkStatusImplementationDefault
          else .fn .Framebuffer_checkStatusImplementationSingle
        drawBuffersImplementation := .fn .AbstractFramebuffer_drawBuffersImplementationDefault
        drawBufferImplementation := .fn .AbstractFramebuffer_drawBufferImplementationDefault
        readBufferImplementation := .fn .AbstractFramebuffer_readBufferImplementationDefault
        renderbufferImplementation := .fn .Framebuffer_renderbufferImplementationDefault
        texture1DImplementation := .unassigned
        texture2DImplementation := .fn .Framebuffer_texture2DImplementationDefault
        textureLayerImplementation := .fn .Framebuffer_textureLayerImplementationDefault
        renderbufferStorageImplementation := .fn .Renderbuffer_storageImplementationDefault
        renderbufferStorageMultisampleImplementation :=
          if context.isExtensionSupported .ANGLE_framebuffer_multisample
          then .fn .Renderbuffer_storageMultisampleImplementationANGLE
          else if context.isExtensionSupported .NV_framebuffer_multisample
          then .fn .Renderbuffer_storageMultisampleImplementationNV
          else .null
        readImplementation :=
          if context.isExtensionSupported .EXT_robustness
          then .fn .AbstractFramebuffer_readImplementationRobustness
          else .fn .AbstractFramebuffer_readImplementationDefault
        invalidateImplementation :=
          if context.isExtensionSupported .EXT_discard_framebuffer
          then .fn .AbstractFramebuffer_invalidateImplementationDefault
          else .fn .AbstractFramebuffer_invalidateImplementationNoOp
        invalidateSubImplementation := .unassigned
        blitImplementation :=
          if context.isExtensionSupported .ANGLE_framebuffer_blit
          then .fn .AbstractFramebuffer_blitImplementationANGLE
          else if context.isExtensionSupported .NV_framebuffer_blit
          then .fn .AbstractFramebuffer_blitImplementationNV
          else .null
        bindImplementation :=
          if context.isExtensionSupported .ANGLE_framebuffer_blit
            || context.isExtensionSupported .APPLE_framebuffer_multisample
            || context.isExtensionSupported .NV_framebuffer_blit
            || context.isExtensionSupported .NV_framebuffer_multisample
          then .fn .Framebuffer_bindImplementationDefault
          else .fn .Framebuffer_bindImplementationSingle
        bindInternalImplementation :=
          if context.isExtensionSupported .ANGLE_framebuffer_blit
            || context.isExtensionSupported .APPLE_framebuffer_multisample
            || context.isExtensionSupported .NV_framebuffer_blit
            || context.isExtensionSupported .NV_framebuffer_multisample
          then .fn .Framebuffer_bindImplementationDefault
          else .fn .Framebuffer_bindImplementationSingle
        readBinding := 0
        drawBinding := 0
        renderbufferBinding := 0
        maxDrawBuffers := 0
        maxColorAttachments := 0
        maxRenderbufferSize := 0
        maxSamples := 0
        maxDualSourceDrawBuffers := none
        viewport := k.DisengagedViewport } := by
  cases h1 : context.isExtensionSupported .ANGLE_framebuffer_blit <;>
  cases h2 : context.isExtensionSupported .APPLE_framebuffer_multisample <;>
  cases h3 : context.isExtensionSupported .NV_framebuffer_blit <;>
  cases h4 : context.isExtensionSupported .NV_framebuffer_multisample <;>
  cases h5 : context.isExtensionSupported .EXT_robustness <;>
  cases h6 : context.isExtensionSupported .ANGLE_framebuffer_multisample <;>
  cases h7 : context.isExtensionSupported .EXT_discard_framebuffer <;>
  simp [FramebufferState.construct, FramebufferState.initial, createSection, dsaSection,
    bindSection, readSection, storageMultisampleSection, invalidateSection, blitSection,
    Platform.TARGET_GLES, Platform.TARGET_GLES2, h1, h2, h3, h4, h5, h6, h7]

/-! ## The registry, platform by platform -/

theorem appended_desktop (k : Constants) (context : Context) (extensions : Registry) :
    appended .desktop k context extensions =
      (if context.isExtensionSupported .ARB_direct_state_access
        then [.ARB_direct_state_access]
        else if context.isExtensionSupported .EXT_direct_state_access
        then [.EXT_direct_state_access] else [])
      ++ (if context.isExtensionSupported .ARB_robustness then [.ARB_robustness] else [])
      ++ (if context.isExtensionSupported .ARB_invalidate_subdata
          then [.ARB_invalidate_subdata] else []) := by
  rw [appended_eq, construct_snd]
  simp only [createSection_snd, dsaSection_snd, bindSection_snd, readSection_snd,
    storageMultisampleSection_snd, invalidateSection_snd, blitSection_snd,
    Platform.TARGET_GLES, Platform.TARGET_GLES2]
  cases context.isExtensionSupported .ARB_direct_state_access <;>
  cases context.isExtensionSupported .EXT_direct_state_access <;>
  simp

theorem appended_gles3 (k : Constants) (context : Context) (extensions : Registry) :
    appended .gles3 k context extensions =
      if context.isExtensionSupported .EXT_robustness then [.EXT_robustness] else [] := by
  rw [appended_eq, construct_snd]
  simp only [createSection_snd, dsaSection_snd, bindSection_snd, readSection_snd,
    storageMultisampleSection_snd, invalidateSection_snd, blitSection_snd,
    Platform.TARGET_GLES, Platform.TARGET_GLES2]
  simp

theorem appended_gles2 (k : Constants) (context : Context) (extensions : Registry) :
    appended .gles2 k context extensions =
      (firstSupported context [.ANGLE_framebuffer_blit, .APPLE_framebuffer_multisample,
          .NV_framebuffer_blit, .NV_framebuffer_multisample]).toList
      ++ (if context.isExtensionSupported .EXT_robustness then [.EXT_robustness] else [])
      ++ (firstSupported context
          [.ANGLE_framebuffer_multisample, .NV_framebuffer_multisample]).toList
      ++ (if context.isExtensionSupported .EXT_discard_framebuffer
          then [.EXT_discard_framebuffer] else [])
      ++ (firstSupported context [.ANGLE_framebuffer_blit, .NV_framebuffer_blit]).toList := by
  rw [appended_eq, construct_snd]
  simp only [createSection_snd, dsaSection_snd, bindSection_snd, readSection_snd,
    storageMultisampleSection_snd, invalidateSection_snd, blitSection_snd,
    Platform.TARGET_GLES, Platform.TARGET_GLES2]
  simp

/-! ## Claims about the selection -/

/-- C1: on desktop the nine members of the DSA/non-DSA section are all the
ARB direct-state-access functions when `ARB_direct_state_access` is supported
(whatever `EXT_direct_state_access` answers), all the EXT ones when only
`EXT_direct_state_access` is supported, and all the default ones when neither
is; the constructor pushes the identifier of that tier once and the other not
at all, so the two identifiers are never both pushed. -/
theorem desktop_dsa_group_single_tier (k : Constants) (context : Context)
    (extensions : Registry) :
    (FramebufferState.construct .desktop k context extensions).1.dsaGroup =
      (if context.isExtensionSupported .ARB_direct_state_access then
        [.fn .AbstractFramebuffer_checkStatusImplementationDSA,
         .fn .AbstractFramebuffer_drawBuffersImplementationDSA,
         .fn .AbstractFramebuffer_drawBufferImplementationDSA,
         .fn .AbstractFramebuffer_readBufferImplementationDSA,
         .fn .Framebuffer_renderbufferImplementationDSA,
         .fn .Framebuffer_texture1DImplementationDSA,
         .fn .Framebuffer_texture2DImplementationDSA,
         .fn .Framebuffer_textureLayerImplementationDSA,
         .fn .Renderbuffer_storageImplementationDSA]
      else if context.isExtensionSupported .EXT_direct_state_access then
        [.fn .AbstractFramebuffer_checkStatusImplementationDSAEXT,
         .fn .AbstractFramebuffer_drawBuffersImplementationDSAEXT,
         .fn .AbstractFramebuffer_drawBufferImplementationDSAEXT,
         .fn .AbstractFramebuffer_readBufferImplementationDSAEXT,
         .fn .Framebuffer_renderbufferImplementationDSAEXT,
         .fn .Framebuffer_texture1DImplementationDSAEXT,
         .fn .Framebuffer_texture2DImplementationDSAEXT,
         .fn .Framebuffer_textureLayerImplementationDSAEXT,
         .fn .Renderbuffer_storageImplementationDSAEXT]
      else
        [.fn .AbstractFramebuffer_checkStatusImplementationDefault,
         .fn .AbstractFramebuffer_drawBuffersImplementationDefault,
         .fn .AbstractFramebuffer_drawBufferImplementationDefault,
         .fn .AbstractFramebuffer_readBufferImplementationDefault,
         .fn .Framebuffer_renderbufferImplementationDefault,
         .fn .Framebuffer_texture1DImplementationDefault,
         .fn .Framebuffer_texture2DImplementationDefault,
         .fn .Framebuffer_textureLayerImplementationDefault,
         .fn .Renderbuffer_storageImplementationDefault])
    ∧ (appended .desktop k context extensions).count .ARB_direct_state_access =
        (if context.isExtensionSupported .ARB_direct_state_access then 1 else 0)
    ∧ (appended .desktop k context extensions).count .EXT_direct_state_access =
        (if context.isExtensionSupported .ARB_direct_state_access then 0
         else if context.isExtensionSupported .EXT_direct_state_access then 1 else 0)
    ∧ ¬ (.ARB_direct_state_access ∈ appended .desktop k context extensions
          ∧ .EXT_direct_state_access ∈ appended .desktop k context extensions) := by
  rw [construct_fst_desktop, appended_desktop]
  cases context.isExtensionSupported .ARB_direct_state_access <;>
  cases context.isExtensionSupported .EXT_direct_state_access <;>
  cases context.isExtensionSupported .ARB_robustness <;>
  cases context.isExtensionSupported .ARB_invalidate_subdata <;>
  simp [FramebufferState.dsaGroup]

/-- C2: the multisample renderbuffer storage member. Desktop: the ARB
direct-state-access function if `ARB_direct_state_access` is supported, else
the EXT one if `EXT_direct_state_access` is supported, else the default one.
ES3: the default one. ES2: the ANGLE function if
`ANGLE_framebuffer_multisample` is supported, else the NV one if
`NV_framebuffer_multisample` is supported, else `nullptr`. So on ES2 it is
`nullptr` exactly when neither is supported, and on desktop and ES3 it is
never `nullptr`. -/
theorem storageMultisample_selection (k : Constants) (context : Context)
    (extensions : Registry) :
    (FramebufferState.construct .desktop k context
        extensions).1.renderbufferStorageMultisampleImplementation =
      (if context.isExtensionSupported .ARB_direct_state_access
        then .fn .Renderbuffer_storageMultisampleImplementationDSA
        else if context.isExtensionSupported .EXT_direct_state_access
        then .fn .Renderbuffer_storageMultisampleImplementationDSAEXT
        else .fn .Renderbuffer_storageMultisampleImplementationDefault)
    ∧ (FramebufferState.construct .gles3 k context
        extensions).1.renderbufferStorageMultisampleImplementation =
      .fn .Renderbuffer_storageMultisampleImplementationDefault
    ∧ (FramebufferState.construct .gles2 k context
        extensions).1.renderbufferStorageMultisampleImplementation =
      (if context.isExtensionSupported .ANGLE_framebuffer_multisample
        then .fn .Renderbuffer_storageMultisampleImplementationANGLE
        else if context.isExtensionSupported .NV_framebuffer_multisample
        then .fn .Renderbuffer_storageMultisampleImplementationNV
        else .null)
    ∧ ((FramebufferState.construct .gles2 k context
          extensions).1.renderbufferStorageMultisampleImplementation = .null
        ↔ (context.isExtensionSupported .ANGLE_framebuffer_multisample = false
            ∧ context.isExtensionSupported .NV_framebuffer_multisample = false))
    ∧ (FramebufferState.construct .desktop k context
        extensions).1.renderbufferStorageMultisampleImplementation ≠ .null
    ∧ (FramebufferState.construct .gles3 k context
        extensions).1.renderbufferStorageMultisampleImplementation ≠ .null := by
  rw [construct_fst_desktop, construct_fst_gles3, construct_fst_gles2]
  cases context.isExtensionSupported .ARB_direct_state_access <;>
  cases context.isExtensionSupported .EXT_direct_state_access <;>
  cases context.isExtensionSupported .ANGLE_framebuffer_multisample <;>
  cases context.isExtensionSupported .NV_framebuffer_multisample <;>
  simp

/-- C3: the blit member. Desktop: the direct-state-access function if
`ARB_direct_state_access` is supported (the one direct-state-access extension
the blit section asks for), else the default one, never `nullptr`. ES3: the
default one. ES2: the ANGLE function if
`ANGLE_framebuffer_blit` is supported, else the NV one if
`NV_framebuffer_blit` is supported, else `nullptr`; so on ES2 it is `nullptr`
exactly when neither is supported. -/
theorem blit_selection (k : Constants) (context : Context) (extensions : Registry) :
    (FramebufferState.construct .desktop k context extensions).1.blitImplementation =
      (if context.isExtensionSupported .ARB_direct_state_access
        then .fn .AbstractFramebuffer_blitImplementationDSA
        else .fn .AbstractFramebuffer_blitImplementationDefault)
    ∧ (FramebufferState.construct .desktop k context extensions).1.blitImplementation ≠ .null
    ∧ (FramebufferState.construct .gles3 k context extensions).1.blitImplementation =
      .fn .AbstractFramebuffer_blitImplementationDefault
    ∧ (FramebufferState.construct .gles2 k context extensions).1.blitImplementation =
      (if context.isExtensionSupported .ANGLE_framebuffer_blit
        then .fn .AbstractFramebuffer_blitImplementationANGLE
        else if context.isExtensionSupported .NV_framebuffer_blit
        then .fn .AbstractFramebuffer_blitImplementationNV
        else .null)
    ∧ ((FramebufferState.construct .gles2 k context extensions).1.blitImplementation = .null
        ↔ (context.isExtensionSupported .ANGLE_framebuffer_blit = false
            ∧ context.isExtensionSupported .NV_framebuffer_blit = false)) := by
  rw [construct_fst_desktop, construct_fst_gles3, construct_fst_gles2]
  cases context.isExtensionSupported .ARB_direct_state_access <;>
  cases context.isExtensionSupported .ANGLE_framebuffer_blit <;>
  cases context.isExtensionSupported .NV_framebuffer_blit <;>
  simp

/-- C4: on ES2 the bind member and the internal bind member are equal; the
bind, internal bind and status check members are the single-target functions
exactly when none of `ANGLE_framebuffer_blit`, `APPLE_framebuffer_multisample`,
`NV_framebuffer_blit`, `NV_framebuffer_multisample` is supported, and the
separate-target (default) ones otherwise; and the status check member is the
one the binding section stores, whatever the members held before it ran. -/
theorem gles2_binding_override (k : Constants) (context : Context)
    (extensions : Registry) :
    (FramebufferState.construct .gles2 k context extensions).1.bindImplementation =
      (FramebufferState.construct .gles2 k context extensions).1.bindInternalImplementation
    ∧ [(FramebufferState.construct .gles2 k context extensions).1.bindImplementation,
       (FramebufferState.construct .gles2 k context extensions).1.bindInternalImplementation,
       (FramebufferState.construct .gles2 k context extensions).1.checkStatusImplementation] =
      (if context.isExtensionSupported .ANGLE_framebuffer_blit = false
          ∧ context.isExtensionSupported .APPLE_framebuffer_multisample = false
          ∧ context.isExtensionSupported .NV_framebuffer_blit = false
          ∧ context.isExtensionSupported .NV_framebuffer_multisample = false
        then [.fn .Framebuffer_bindImplementationSingle,
              .fn .Framebuffer_bindImplementationSingle,
              .fn .Framebuffer_checkStatusImplementationSingle]
        else [.fn .Framebuffer_bindImplementationDefault,
              .fn .Framebuffer_bindImplementationDefault,
              .fn .Framebuffer_checkStatusImplementationDefault])
    ∧ ([(FramebufferState.construct .gles2 k context extensions).1.bindImplementation,
        (FramebufferState.construct .gles2 k context extensions).1.bindInternalImplementation,
        (FramebufferState.construct .gles2 k context extensions).1.checkStatusImplementation] =
        [.fn .Framebuffer_bindImplementationSingle,
         .fn .Framebuffer_bindImplementationSingle,
         .fn .Framebuffer_checkStatusImplementationSingle]
        ↔ (context.isExtensionSupported .ANGLE_framebuffer_blit = false
            ∧ context.isExtensionSupported .APPLE_framebuffer_multisample = false
            ∧ context.isExtensionSupported .NV_framebuffer_blit = false
            ∧ context.isExtensionSupported .NV_framebuffer_multisample = false))
    ∧ (∀ (s : FramebufferState) (registry : Registry),
        (bindSection .gles2 context s registry).1.checkStatusImplementation =
          (FramebufferState.construct .gles2 k context
            extensions).1.checkStatusImplementation) := by
  rw [construct_fst_gles2]
  cases h1 : context.isExtensionSupported .ANGLE_framebuffer_blit <;>
  cases h2 : context.isExtensionSupported .APPLE_framebuffer_multisample <;>
  cases h3 : context.isExtensionSupported .NV_framebuffer_blit <;>
  cases h4 : context.isExtensionSupported .NV_framebuffer_multisample <;>
  simp [bindSection, Platform.TARGET_GLES2, h1, h2, h3, h4]

/-! ## Reading a slot -/

theorem Slot.isFunction_fn (f : Impl) : (Slot.fn f).isFunction = true := rfl

theorem Slot.isAssigned_fn (f : Impl) : (Slot.fn f).isAssigned = true := rfl

theorem Slot.isAssigned_null : Slot.null.isAssigned = true := rfl

theorem Slot.isAssigned_unassigned : Slot.unassigned.isAssigned = false := rfl

/-- C5, as stated, fails: on ES3 with no extension supported the 1D texture
attachment member has nothing stored in it, so the thirteen members the claim
lists for every platform do not all hold a function. -/
theorem mandatory_slots_texture1D_counterexample :
    (FramebufferState.construct .gles3 sampleConstants (Context.ofList [])
        []).1.texture1DImplementation = .unassigned
    ∧ ¬ ([(FramebufferState.construct .gles3 sampleConstants (Context.ofList [])
            []).1.createImplementation,
          (FramebufferState.construct .gles3 sampleConstants (Context.ofList [])
            []).1.createRenderbufferImplementation,
          (FramebufferState.construct .gles3 sampleConstants (Context.ofList [])
            []).1.checkStatusImplementation,
          (FramebufferState.construct .gles3 sampleConstants (Context.ofList [])
            []).1.drawBuffersImplementation,
          (FramebufferState.construct .gles3 sampleConstants (Context.ofList [])
            []).1.drawBufferImplementation,
          (FramebufferState.construct .gles3 sampleConstants (Context.ofList [])
            []).1.readBufferImplementation,
          (FramebufferState.construct .gles3 sampleConstants (Context.ofList [])
            []).1.renderbufferImplementation,
          (FramebufferState.construct .gles3 sampleConstants (Context.ofList [])
            []).1.texture1DImplementation,
          (FramebufferState.construct .gles3 sampleConstants (Context.ofList [])
            []).1.texture2DImplementation,
          (FramebufferState.construct .gles3 sampleConstants (Context.ofList [])
            []).1.textureLayerImplementation,
          (FramebufferState.construct .gles3 sampleConstants (Context.ofList [])
            []).1.renderbufferStorageImplementation,
          (FramebufferState.construct .gles3 sampleConstants (Context.ofList [])
            []).1.readImplementation,
          (FramebufferState.construct .gles3 sampleConstants (Context.ofList [])
            []).1.invalidateImplementation].all Slot.isFunction = true) := by
  decide

/-- C5, amended: on every platform and for every context the constructor
returns, and these twelve members hold a function: create framebuffer, create
renderbuffer, status check, draw buffers, draw buffer, read buffer,
renderbuffer attachment, 2D texture attachment, layered texture attachment,
renderbuffer storage, read pixels, invalidate. The 1D texture attachment
member holds a function on desktop. The multisample storage, sub-region
invalidate and blit members hold a function on desktop and on ES3. The bind
and internal bind members hold a function on ES2. -/
theorem mandatory_slots_hold_functions (p : Platform) (k : Constants) (context : Context)
    (extensions : Registry) :
    [(FramebufferState.construct p k context extensions).1.createImplementation,
     (FramebufferState.construct p k context extensions).1.createRenderbufferImplementation,
     (FramebufferState.construct p k context extensions).1.checkStatusImplementation,
     (FramebufferState.construct p k context extensions).1.drawBuffersImplementation,
     (FramebufferState.construct p k context extensions).1.drawBufferImplementation,
     (FramebufferState.construct p k context extensions).1.readBufferImplementation,
     (FramebufferState.construct p k context extensions).1.renderbufferImplementation,
     (FramebufferState.construct p k context extensions).1.texture2DImplementation,
     (FramebufferState.construct p k context extensions).1.textureLayerImplementation,
     (FramebufferState.construct p k context extensions).1.renderbufferStorageImplementation,
     (FramebufferState.construct p k context extensions).1.readImplementation,
     (FramebufferState.construct p k context extensions).1.invalidateImplementation].all
        Slot.isFunction = true
    ∧ (FramebufferState.construct .desktop k context
        extensions).1.texture1DImplementation.isFunction = true
    ∧ [(FramebufferState.construct .desktop k context
          extensions).1.renderbufferStorageMultisampleImplementation,
       (FramebufferState.construct .desktop k context extensions).1.invalidateSubImplementation,
       (FramebufferState.construct .desktop k context extensions).1.blitImplementation,
       (FramebufferState.construct .gles3 k context
          extensions).1.renderbufferStorageMultisampleImplementation,
       (FramebufferState.construct .gles3 k context extensions).1.invalidateSubImplementation,
       (FramebufferState.construct .gles3 k context extensions).1.blitImplementation].all
        Slot.isFunction = true
    ∧ [(FramebufferState.construct .gles2 k context extensions).1.bindImplementation,
       (FramebufferState.construct .gles2 k context
          extensions).1.bindInternalImplementation].all Slot.isFunction = true := by
  refine ⟨?_, ?_, ?_, ?_⟩
  · cases p
    · rw [construct_fst_desktop]
      simp [apply_ite Slot.isFunction, Slot.isFunction_fn]
    · rw [construct_fst_gles3]
      simp [apply_ite Slot.isFunction, Slot.isFunction_fn]
    · rw [construct_fst_gles2]
      simp [apply_ite Slot.isFunction, Slot.isFunction_fn]
  · rw [construct_fst_desktop]
    simp [apply_ite Slot.isFunction, Slot.isFunction_fn]
  · rw [construct_fst_desktop, construct_fst_gles3]
    simp [apply_ite Slot.isFunction, Slot.isFunction_fn]
  · rw [construct_fst_gles2]
    simp [apply_ite Slot.isFunction, Slot.isFunction_fn]

/-- C6, as stated, fails: on ES2 with no extension supported the sub-region
invalidate member (and the 1D texture attachment member) has nothing stored
in it, so not all eighteen members are assigned. -/
theorem all_slots_assigned_counterexample :
    (FramebufferState.construct .gles2 sampleConstants (Context.ofList [])
        []).1.invalidateSubImplementation = .unassigned
    ∧ ¬ ((FramebufferState.construct .gles2 sampleConstants (Context.ofList [])
          []).1.slots.all Slot.isAssigned = true) := by
  decide

/-- C6, amended: for every context the constructor stores a function or
`nullptr` in each of the eighteen members except the ones whose assignment is
compiled out for the platform, and those are left unassigned: the bind and
internal bind members on desktop; the 1D texture attachment, bind and internal
bind members on ES3; the 1D texture attachment and sub-region invalidate
members on ES2. (The list is in the order of `FramebufferState.slots`.) -/
theorem slots_assigned_per_platform (k : Constants) (context : Context)
    (extensions : Registry) :
    (FramebufferState.construct .desktop k context extensions).1.slots.map Slot.isAssigned =
      [true, true, true, true, true, true, true, true, true,
       true, true, true, true, true, true, true, false, false]
    ∧ (FramebufferState.construct .gles3 k context extensions).1.slots.map Slot.isAssigned =
      [true, true, true, true, true, true, true, false, true,
       true, true, true, true, true, true, true, false, false]
    ∧ (FramebufferState.construct .gles2 k context extensions).1.slots.map Slot.isAssigned =
      [true, true, true, true, true, true, true, false, true,
       true, true, true, true, true, false, true, true, true] := by
  rw [construct_fst_desktop, construct_fst_gles3, construct_fst_gles2]
  simp [FramebufferState.slots, apply_ite Slot.isAssigned, Slot.isAssigned_fn,
    Slot.isAssigned_null, Slot.isAssigned_unassigned]

/-- C7: on desktop the constructor pushes, in this order, the
`ARB_direct_state_access` identifier if that extension is supported, else the
`EXT_direct_state_access` identifier if that one is; then the `ARB_robustness`
identifier if supported; then the `ARB_invalidate_subdata` identifier if
supported. So no identifier is pushed twice; a member holding an ARB
direct-state-access function, an EXT direct-state-access function, the
robustness read function or a real invalidate function comes with the
identifier of its extension in the pushed sequence; and with
`ARB_direct_state_access` supported and `ARB_robustness` not, the
direct-state-access identifier is pushed exactly once and the robustness
identifier not at all. -/
theorem desktop_registry_sequence (k : Constants) (context : Context)
    (extensions : Registry) :
    appended .desktop k context extensions =
      (if context.isExtensionSupported .ARB_direct_state_access
        then [.ARB_direct_state_access]
        else if context.isExtensionSupported .EXT_direct_state_access
        then [.EXT_direct_state_access] else [])
      ++ (if context.isExtensionSupported .ARB_robustness then [.ARB_robustness] else [])
      ++ (if context.isExtensionSupported .ARB_invalidate_subdata
          then [.ARB_invalidate_subdata] else [])
    ∧ (appended .desktop k context extensions).Nodup
    ∧ (∀ s ∈ (FramebufferState.construct .desktop k context extensions).1.slots,
        s ∈ [Slot.fn .Framebuffer_createImplementationDSA,
             .fn .Renderbuffer_createImplementationDSA,
             .fn .AbstractFramebuffer_checkStatusImplementationDSA,
             .fn .AbstractFramebuffer_drawBuffersImplementationDSA,
             .fn .AbstractFramebuffer_drawBufferImplementationDSA,
             .fn .AbstractFramebuffer_readBufferImplementationDSA,
             .fn .Framebuffer_renderbufferImplementationDSA,
             .fn .Framebuffer_texture1DImplementationDSA,
             .fn .Framebuffer_texture2DImplementationDSA,
             .fn .Framebuffer_textureLayerImplementationDSA,
             .fn .Renderbuffer_storageImplementationDSA,
             .fn .Renderbuffer_storageMultisampleImplementationDSA,
             .fn .AbstractFramebuffer_invalidateImplementationDSA,
             .fn .AbstractFramebuffer_blitImplementationDSA] →
        .ARB_direct_state_access ∈ appended .desktop k context extensions)
    ∧ (∀ s ∈ (FramebufferState.construct .desktop k context extensions).1.slots,
        s ∈ [Slot.fn .AbstractFramebuffer_checkStatusImplementationDSAEXT,
             .fn .AbstractFramebuffer_drawBuffersImplementationDSAEXT,
             .fn .AbstractFramebuffer_drawBufferImplementationDSAEXT,
             .fn .AbstractFramebuffer_readBufferImplementationDSAEXT,
             .fn .Framebuffer_renderbufferImplementationDSAEXT,
             .fn .Framebuffer_texture1DImplementationDSAEXT,
             .fn .Framebuffer_texture2DImplementationDSAEXT,
             .fn .Framebuffer_textureLayerImplementationDSAEXT,
             .fn .Renderbuffer_storageImplementationDSAEXT,
             .fn .Renderbuffer_storageMultisampleImplementationDSAEXT] →
        .EXT_direct_state_access ∈ appended .desktop k context extensions)
    ∧ ((FramebufferState.construct .desktop k context extensions).1.readImplementation =
          .fn .AbstractFramebuffer_readImplementationRobustness →
        .ARB_robustness ∈ appended .desktop k context extensions)
    ∧ (∀ s ∈ [(FramebufferState.construct .desktop k context
                extensions).1.invalidateImplementation,
              (FramebufferState.construct .desktop k context
                extensions).1.invalidateSubImplementation],
        s ∈ [Slot.fn .AbstractFramebuffer_invalidateImplementationDSA,
             .fn .AbstractFramebuffer_invalidateImplementationDefault] →
        .ARB_invalidate_subdata ∈ appended .desktop k context extensions)
    ∧ (context.isExtensionSupported .ARB_direct_state_access = true →
        context.isExtensionSupported .ARB_robustness = false →
        (appended .desktop k context extensions).count .ARB_direct_state_access = 1
        ∧ .ARB_robustness ∉ appended .desktop k context extensions) := by
  rw [construct_fst_desktop, appended_desktop]
  refine ⟨rfl, ?_, ?_, ?_, ?_, ?_, ?_⟩ <;> try simp only [FramebufferState.slots]
  · cases context.isExtensionSupported .ARB_direct_state_access <;>
    cases context.isExtensionSupported .EXT_direct_state_access <;>
    cases context.isExtensionSupported .ARB_robustness <;>
    cases context.isExtensionSupported .ARB_invalidate_subdata <;>
    decide
  · cases context.isExtensionSupported .ARB_direct_state_access <;>
    cases context.isExtensionSupported .EXT_direct_state_access <;>
    cases context.isExtensionSupported .ARB_robustness <;>
    cases context.isExtensionSupported .ARB_invalidate_subdata <;>
    decide
  · cases context.isExtensionSupported .ARB_direct_state_access <;>
    cases context.isExtensionSupported .EXT_direct_state_access <;>
    cases context.isExtensionSupported .ARB_robustness <;>
    cases context.isExtensionSupported .ARB_invalidate_subdata <;>
    decide
  · cases context.isExtensionSupported .ARB_robustness <;> simp
  · cases context.isExtensionSupported .ARB_direct_state_access <;>
    cases context.isExtensionSupported .ARB_invalidate_subdata <;>
    simp
  · cases context.isExtensionSupported .ARB_direct_state_access <;>
    cases context.isExtensionSupported .EXT_direct_state_access <;>
    cases context.isExtensionSupported .ARB_robustness <;>
    cases context.isExtensionSupported .ARB_invalidate_subdata <;>
    simp

/-- C8: each selection group pushes at most one identifier, and the one it
pushes is the first supported one of its priority list. The direct-state-access
group (the create and DSA/non-DSA sections together) pushes the first
supported of `ARB_direct_state_access`, `EXT_direct_state_access` on desktop
and nothing elsewhere, and over the whole constructor run no further
identifier of that pair is pushed. The ES2 binding section pushes the first
supported of `ANGLE_framebuffer_blit`, `APPLE_framebuffer_multisample`,
`NV_framebuffer_blit`, `NV_framebuffer_multisample` on ES2 and nothing
elsewhere. The multisample storage section pushes the first supported of
`ANGLE_framebuffer_multisample`, `NV_framebuffer_multisample` on ES2 and
nothing elsewhere. The blit section pushes the first supported of
`ANGLE_framebuffer_blit`, `NV_framebuffer_blit` on ES2 and nothing
elsewhere. -/
theorem group_pushes_first_supported (p : Platform) (k : Constants) (context : Context)
    (s : FramebufferState) (extensions : Registry) :
    (dsaSection p context (createSection p context s extensions).1
        (createSection p context s extensions).2).2 =
      extensions ++
        (if p = .desktop
          then firstSupported context [.ARB_direct_state_access, .EXT_direct_state_access]
          else none).toList
    ∧ (appended p k context extensions).filter
        (fun e => decide (e ∈ [Extension.ARB_direct_state_access,
          Extension.EXT_direct_state_access])) =
        (if p = .desktop
          then firstSupported context [.ARB_direct_state_access, .EXT_direct_state_access]
          else none).toList
    ∧ (bindSection p context s extensions).2 =
      extensions ++
        (if p = .gles2
          then firstSupported context [.ANGLE_framebuffer_blit,
            .APPLE_framebuffer_multisample, .NV_framebuffer_blit,
            .NV_framebuffer_multisample]
          else none).toList
    ∧ (storageMultisampleSection p context s extensions).2 =
      extensions ++
        (if p = .gles2
          then firstSupported context
            [.ANGLE_framebuffer_multisample, .NV_framebuffer_multisample]
          else none).toList
    ∧ (blitSection p context s extensions).2 =
      extensions ++
        (if p = .gles2
          then firstSupported context [.ANGLE_framebuffer_blit, .NV_framebuffer_blit]
          else none).toList
    ∧ ((dsaSection p context (createSection p context s extensions).1
          (createSection p context s extensions).2).2.drop extensions.length).length ≤ 1
    ∧ ((bindSection p context s extensions).2.drop extensions.length).length ≤ 1
    ∧ ((storageMultisampleSection p context s extensions).2.drop
          extensions.length).length ≤ 1
    ∧ ((blitSection p context s extensions).2.drop extensions.length).length ≤ 1 := by
  refine ⟨?_, ?_, ?_, ?_, ?_, ?_, ?_, ?_, ?_⟩
  · simp only [createSection_snd, dsaSection_snd, firstSupported]
    cases p <;>
    cases h1 : context.isExtensionSupported .ARB_direct_state_access <;>
    cases h2 : context.isExtensionSupported .EXT_direct_state_access <;>
    simp [Platform.TARGET_GLES, List.find?, h1, h2]
  · cases p
    · rw [appended_desktop]
      cases h1 : context.isExtensionSupported .ARB_direct_state_access <;>
      cases h2 : context.isExtensionSupported .EXT_direct_state_access <;>
      cases context.isExtensionSupported .ARB_robustness <;>
      cases context.isExtensionSupported .ARB_invalidate_subdata <;>
      simp [firstSupported, List.find?, h1, h2]
    · rw [appended_gles3]
      cases context.isExtensionSupported .EXT_robustness <;> simp
    · rw [appended_gles2]
      simp only [List.filter_append, firstSupported]
      cases h1 : context.isExtensionSupported .ANGLE_framebuffer_blit <;>
      cases h2 : context.isExtensionSupported .APPLE_framebuffer_multisample <;>
      cases h3 : context.isExtensionSupported .NV_framebuffer_blit <;>
      cases h4 : context.isExtensionSupported .NV_framebuffer_multisample <;>
      cases h5 : context.isExtensionSupported .ANGLE_framebuffer_multisample <;>
      cases context.isExtensionSupported .EXT_robustness <;>
      cases context.isExtensionSupported .EXT_discard_framebuffer <;>
      simp [List.find?, h1, h2, h3, h4, h5]
  · rw [bindSection_snd]
    cases p <;> simp [Platform.TARGET_GLES2]
  · rw [storageMultisampleSection_snd]
    cases p <;>
    cases context.isExtensionSupported .ARB_direct_state_access <;>
    cases context.isExtensionSupported .EXT_direct_state_access <;>
    simp [Platform.TARGET_GLES, Platform.TARGET_GLES2]
  · rw [blitSection_snd]
    cases p <;> simp [Platform.TARGET_GLES, Platform.TARGET_GLES2]
  · simp only [createSection_snd, dsaSection_snd]
    cases p <;>
    cases context.isExtensionSupported .ARB_direct_state_access <;>
    cases context.isExtensionSupported .EXT_direct_state_access <;>
    simp [Platform.TARGET_GLES]
  · rw [bindSection_snd, List.drop_left]
    split_ifs
    · cases firstSupported context [.ANGLE_framebuffer_blit, .APPLE_framebuffer_multisample,
        .NV_framebuffer_blit, .NV_framebuffer_multisample] <;> simp
    · simp
  · rw [storageMultisampleSection_snd, List.drop_left]
    split_ifs
    · simp
    · simp
    · cases firstSupported context
        [.ANGLE_framebuffer_multisample, .NV_framebuffer_multisample] <;> simp
    · simp
  · rw [blitSection_snd, List.drop_left]
    split_ifs
    · simp
    · cases firstSupported context [.ANGLE_framebuffer_blit, .NV_framebuffer_blit] <;> simp
    · simp

/-! ## Claims about the tracked bindings -/

/-- C9: after `reset()` the read, draw and renderbuffer bindings are
`State::DisengagedBinding` and the viewport is `DisengagedViewport`, and a
second `reset()` changes nothing. -/
theorem reset_disengages_and_is_idempotent (k : Constants) (s : FramebufferState) :
    (FramebufferState.reset k s).readBinding = k.DisengagedBinding
    ∧ (FramebufferState.reset k s).drawBinding = k.DisengagedBinding
    ∧ (FramebufferState.reset k s).renderbufferBinding = k.DisengagedBinding
    ∧ (FramebufferState.reset k s).viewport = k.DisengagedViewport
    ∧ FramebufferState.reset k (FramebufferState.reset k s) = FramebufferState.reset k s :=
  ⟨rfl, rfl, rfl, rfl, rfl⟩

/-- C10, as stated, fails: with `State::DisengagedBinding` being `~0u` the
object the constructor builds on desktop for a context without extensions has
its three bindings at 0, not at the disengaged value, and `reset()` changes
them. -/
theorem construct_bindings_counterexample :
    ¬ ((FramebufferState.construct .desktop sampleConstants (Context.ofList [])
          []).1.readBinding = sampleConstants.DisengagedBinding
        ∧ (FramebufferState.construct .desktop sampleConstants (Context.ofList [])
          []).1.drawBinding = sampleConstants.DisengagedBinding
        ∧ (FramebufferState.construct .desktop sampleConstants (Context.ofList [])
          []).1.renderbufferBinding = sampleConstants.DisengagedBinding
        ∧ (FramebufferState.construct .desktop sampleConstants (Context.ofList [])
          []).1.viewport = sampleConstants.DisengagedViewport)
    ∧ (FramebufferState.reset sampleConstants
        (FramebufferState.construct .desktop sampleConstants (Context.ofList [])
          []).1).readBinding ≠
      (FramebufferState.construct .desktop sampleConstants (Context.ofList [])
          []).1.readBinding := by
  decide

/-- C10, amended: on every platform and for every context, right after
construction the read, draw and renderbuffer bindings are 0 and the viewport
is `DisengagedViewport`; a `reset()` then leaves the viewport as it is and
sets the three bindings to `State::DisengagedBinding`, so it leaves them as
they are exactly when that constant is 0. -/
theorem construct_bindings_zero_viewport_disengaged (p : Platform) (k : Constants)
    (context : Context) (extensions : Registry) :
    (FramebufferState.construct p k context extensions).1.readBinding = 0
    ∧ (FramebufferState.construct p k context extensions).1.drawBinding = 0
    ∧ (FramebufferState.construct p k context extensions).1.renderbufferBinding = 0
    ∧ (FramebufferState.construct p k context extensions).1.viewport = k.DisengagedViewport
    ∧ (FramebufferState.reset k
        (FramebufferState.construct p k context extensions).1).viewport =
      (FramebufferState.construct p k context extensions).1.viewport
    ∧ (FramebufferState.reset k
        (FramebufferState.construct p k context extensions).1).readBinding =
      k.DisengagedBinding
    ∧ (FramebufferState.reset k
        (FramebufferState.construct p k context extensions).1).drawBinding =
      k.DisengagedBinding
    ∧ (FramebufferState.reset k
        (FramebufferState.construct p k context extensions).1).renderbufferBinding =
      k.DisengagedBinding
    ∧ (((FramebufferState.reset k
          (FramebufferState.construct p k context extensions).1).readBinding =
          (FramebufferState.construct p k context extensions).1.readBinding
        ∧ (FramebufferState.reset k
          (FramebufferState.construct p k context extensions).1).drawBinding =
          (FramebufferState.construct p k context extensions).1.drawBinding
        ∧ (FramebufferState.reset k
          (FramebufferState.construct p k context extensions).1).renderbufferBinding =
          (FramebufferState.construct p k context extensions).1.renderbufferBinding)
        ↔ k.DisengagedBinding = 0) := by
  cases p
  · rw [construct_fst_desktop]
    simp [FramebufferState.reset]
  · rw [construct_fst_gles3]
    simp [FramebufferState.reset]
  · rw [construct_fst_gles2]
    simp [FramebufferState.reset]

/-! ## Claims about invalidation, reading and creation -/

/-- C11: the invalidate and sub-region invalidate members. Desktop: with
`ARB_invalidate_subdata` supported both are the direct-state-access function
when `ARB_direct_state_access` is supported and both the default function
otherwise; without it both are the no-op function, which is a function and
not `nullptr`. ES2: the invalidate member is the default function if
`EXT_discard_framebuffer` is supported and the no-op function otherwise, and
the sub-region member is left unassigned. ES3: both are the default function.
On every platform the two members are equal whenever both are assigned. -/
theorem invalidate_selection (p : Platform) (k : Constants) (context : Context)
    (extensions : Registry) :
    (FramebufferState.construct .desktop k context extensions).1.invalidateImplementation =
      (if context.isExtensionSupported .ARB_invalidate_subdata then
        (if context.isExtensionSupported .ARB_direct_state_access
          then .fn .AbstractFramebuffer_invalidateImplementationDSA
          else .fn .AbstractFramebuffer_invalidateImplementationDefault)
       else .fn .AbstractFramebuffer_invalidateImplementationNoOp)
    ∧ (FramebufferState.construct .desktop k context extensions).1.invalidateSubImplementation =
      (if context.isExtensionSupported .ARB_invalidate_subdata then
        (if context.isExtensionSupported .ARB_direct_state_access
          then .fn .AbstractFramebuffer_invalidateImplementationDSA
          else .fn .AbstractFramebuffer_invalidateImplementationDefault)
       else .fn .AbstractFramebuffer_invalidateImplementationNoOp)
    ∧ (Slot.fn .AbstractFramebuffer_invalidateImplementationNoOp).isFunction = true
    ∧ Slot.fn .AbstractFramebuffer_invalidateImplementationNoOp ≠ Slot.null
    ∧ (FramebufferState.construct .gles2 k context extensions).1.invalidateImplementation =
      (if context.isExtensionSupported .EXT_discard_framebuffer
        then .fn .AbstractFramebuffer_invalidateImplementationDefault
        else .fn .AbstractFramebuffer_invalidateImplementationNoOp)
    ∧ (FramebufferState.construct .gles2 k context extensions).1.invalidateSubImplementation =
      .unassigned
    ∧ (FramebufferState.construct .gles3 k context extensions).1.invalidateImplementation =
      .fn .AbstractFramebuffer_invalidateImplementationDefault
    ∧ (FramebufferState.construct .gles3 k context extensions).1.invalidateSubImplementation =
      .fn .AbstractFramebuffer_invalidateImplementationDefault
    ∧ ((FramebufferState.construct p k context
          extensions).1.invalidateImplementation.isAssigned = true →
        (FramebufferState.construct p k context
          extensions).1.invalidateSubImplementation.isAssigned = true →
        (FramebufferState.construct p k context extensions).1.invalidateImplementation =
          (FramebufferState.construct p k context
            extensions).1.invalidateSubImplementation) := by
  refine ⟨?_, ?_, rfl, ?_, ?_, ?_, ?_, ?_, ?_⟩
  · rw [construct_fst_desktop]
  · rw [construct_fst_desktop]
  · decide
  · rw [construct_fst_gles2]
  · rw [construct_fst_gles2]
  · rw [construct_fst_gles3]
  · rw [construct_fst_gles3]
  · cases p
    · rw [construct_fst_desktop]
      intro _ _
      rfl
    · rw [construct_fst_gles3]
      intro _ _
      rfl
    · rw [construct_fst_gles2]
      intro _ h
      simp [Slot.isAssigned_unassigned] at h

/-- C11 at a concrete input: desktop with `ARB_invalidate_subdata` only, where
both members are assigned and both are the default function. -/
theorem invalidate_selection_witness :
    (FramebufferState.construct .desktop sampleConstants
        (Context.ofList [.ARB_invalidate_subdata]) []).1.invalidateImplementation.isAssigned
      = true
    ∧ (FramebufferState.construct .desktop sampleConstants
        (Context.ofList [.ARB_invalidate_subdata]) []).1.invalidateSubImplementation.isAssigned
      = true
    ∧ (FramebufferState.construct .desktop sampleConstants
        (Context.ofList [.ARB_invalidate_subdata]) []).1.invalidateImplementation =
      (FramebufferState.construct .desktop sampleConstants
        (Context.ofList [.ARB_invalidate_subdata]) []).1.invalidateSubImplementation :=
  ⟨by decide, by decide,
    (invalidate_selection .desktop sampleConstants
      (Context.ofList [.ARB_invalidate_subdata]) []).2.2.2.2.2.2.2.2 (by decide) (by decide)⟩

/-- C12: on every platform the read member is the robustness function when
the robustness extension of the platform is supported (`ARB_robustness` on
desktop, `EXT_robustness` on ES3 and ES2) and the default function otherwise,
so never `nullptr`; and the identifier of that extension is pushed once when
the robustness function is stored and not at all otherwise. -/
theorem read_selection (p : Platform) (k : Constants) (context : Context)
    (extensions : Registry) :
    (FramebufferState.construct p k context extensions).1.readImplementation =
      (if context.isExtensionSupported
          (if p = .desktop then .ARB_robustness else .EXT_robustness)
        then .fn .AbstractFramebuffer_readImplementationRobustness
        else .fn .AbstractFramebuffer_readImplementationDefault)
    ∧ ((FramebufferState.construct p k context extensions).1.readImplementation =
          .fn .AbstractFramebuffer_readImplementationRobustness
        ↔ context.isExtensionSupported
            (if p = .desktop then .ARB_robustness else .EXT_robustness) = true)
    ∧ (FramebufferState.construct p k context extensions).1.readImplementation ≠ .null
    ∧ (appended p k context extensions).count
          (if p = .desktop then .ARB_robustness else .EXT_robustness) =
        (if (FramebufferState.construct p k context extensions).1.readImplementation =
            .fn .AbstractFramebuffer_readImplementationRobustness then 1 else 0) := by
  cases p
  · rw [construct_fst_desktop, appended_desktop]
    cases context.isExtensionSupported .ARB_direct_state_access <;>
    cases context.isExtensionSupported .EXT_direct_state_access <;>
    cases h : context.isExtensionSupported .ARB_robustness <;>
    cases context.isExtensionSupported .ARB_invalidate_subdata <;>
    simp [h]
  · rw [construct_fst_gles3, appended_gles3]
    cases h : context.isExtensionSupported .EXT_robustness <;> simp [h]
  · rw [construct_fst_gles2, appended_gles2]
    simp only [firstSupported]
    cases h1 : context.isExtensionSupported .ANGLE_framebuffer_blit <;>
    cases h2 : context.isExtensionSupported .APPLE_framebuffer_multisample <;>
    cases h3 : context.isExtensionSupported .NV_framebuffer_blit <;>
    cases h4 : context.isExtensionSupported .NV_framebuffer_multisample <;>
    cases h5 : context.isExtensionSupported .ANGLE_framebuffer_multisample <;>
    cases h6 : context.isExtensionSupported .EXT_robustness <;>
    cases context.isExtensionSupported .EXT_discard_framebuffer <;>
    simp [List.find?, h1, h2, h3, h4, h5, h6]

/-- C13: the create framebuffer and create renderbuffer members always hold
a function, of the same kind for both. Desktop: the direct-state-access
functions exactly when `ARB_direct_state_access` is supported and the default
ones otherwise; with only `EXT_direct_state_access` supported they are the
default ones while the nine members of the DSA/non-DSA section are the EXT
direct-state-access ones. ES3 and ES2: the default ones. -/
theorem create_selection (k : Constants) (context : Context) (extensions : Registry) :
    [(FramebufferState.construct .desktop k context extensions).1.createImplementation,
     (FramebufferState.construct .desktop k context
        extensions).1.createRenderbufferImplementation] =
      (if context.isExtensionSupported .ARB_direct_state_access
        then [.fn .Framebuffer_createImplementationDSA,
              .fn .Renderbuffer_createImplementationDSA]
        else [.fn .Framebuffer_createImplementationDefault,
              .fn .Renderbuffer_createImplementationDefault])
    ∧ ([(FramebufferState.construct .desktop k context extensions).1.createImplementation,
        (FramebufferState.construct .desktop k context
          extensions).1.createRenderbufferImplementation] =
        [.fn .Framebuffer_createImplementationDSA, .fn .Renderbuffer_createImplementationDSA]
        ↔ context.isExtensionSupported .ARB_direct_state_access = true)
    ∧ (context.isExtensionSupported .ARB_direct_state_access = false →
        context.isExtensionSupported .EXT_direct_state_access = true →
        [(FramebufferState.construct .desktop k context extensions).1.createImplementation,
         (FramebufferState.construct .desktop k context
            extensions).1.createRenderbufferImplementation] =
          [.fn .Framebuffer_createImplementationDefault,
           .fn .Renderbuffer_createImplementationDefault]
        ∧ (FramebufferState.construct .desktop k context extensions).1.dsaGroup =
          [.fn .AbstractFramebuffer_checkStatusImplementationDSAEXT,
           .fn .AbstractFramebuffer_drawBuffersImplementationDSAEXT,
           .fn .AbstractFramebuffer_drawBufferImplementationDSAEXT,
           .fn .AbstractFramebuffer_readBufferImplementationDSAEXT,
           .fn .Framebuffer_renderbufferImplementationDSAEXT,
           .fn .Framebuffer_texture1DImplementationDSAEXT,
           .fn .Framebuffer_texture2DImplementationDSAEXT,
           .fn .Framebuffer_textureLayerImplementationDSAEXT,
           .fn .Renderbuffer_storageImplementationDSAEXT])
    ∧ [(FramebufferState.construct .gles3 k context extensions).1.createImplementation,
       (FramebufferState.construct .gles3 k context
          extensions).1.createRenderbufferImplementation,
       (FramebufferState.construct .gles2 k context extensions).1.createImplementation,
       (FramebufferState.construct .gles2 k context
          extensions).1.createRenderbufferImplementation] =
      [.fn .Framebuffer_createImplementationDefault,
       .fn .Renderbuffer_createImplementationDefault,
       .fn .Framebuffer_createImplementationDefault,
       .fn .Renderbuffer_createImplementationDefault]
    ∧ [(FramebufferState.construct .desktop k context extensions).1.createImplementation,
       (FramebufferState.construct .desktop k context
          extensions).1.createRenderbufferImplementation].all Slot.isFunction = true := by
  rw [construct_fst_desktop, construct_fst_gles3, construct_fst_gles2]
  cases context.isExtensionSupported .ARB_direct_state_access <;>
  cases context.isExtensionSupported .EXT_direct_state_access <;>
  simp [FramebufferState.dsaGroup, Slot.isFunction_fn]

/-- C13 at a concrete input: desktop with `EXT_direct_state_access` only. -/
theorem create_selection_witness :
    [(FramebufferState.construct .desktop sampleConstants
        (Context.ofList [.EXT_direct_state_access]) []).1.createImplementation,
     (FramebufferState.construct .desktop sampleConstants
        (Context.ofList [.EXT_direct_state_access]) []).1.createRenderbufferImplementation] =
      [.fn .Framebuffer_createImplementationDefault,
       .fn .Renderbuffer_createImplementationDefault]
    ∧ (FramebufferState.construct .desktop sampleConstants
        (Context.ofList [.EXT_direct_state_access]) []).1.dsaGroup =
      [.fn .AbstractFramebuffer_checkStatusImplementationDSAEXT,
       .fn .AbstractFramebuffer_drawBuffersImplementationDSAEXT,
       .fn .AbstractFramebuffer_drawBufferImplementationDSAEXT,
       .fn .AbstractFramebuffer_readBufferImplementationDSAEXT,
       .fn .Framebuffer_renderbufferImplementationDSAEXT,
       .fn .Framebuffer_texture1DImplementationDSAEXT,
       .fn .Framebuffer_texture2DImplementationDSAEXT,
       .fn .Framebuffer_textureLayerImplementationDSAEXT,
       .fn .Renderbuffer_storageImplementationDSAEXT] :=
  (create_selection sampleConstants (Context.ofList [.EXT_direct_state_access]) []).2.2.1
    (by decide) (by decide)

/-! ## Claims about what the selection depends on -/

theorem construct_snd_appended (p : Platform) (k : Constants) (context : Context)
    (extensions : Registry) :
    (FramebufferState.construct p k context extensions).2 =
      extensions ++ appended p k context extensions := by
  rw [appended_eq, construct_snd p k context extensions, construct_snd p k context []]
  simp

theorem construct_fst_registry_irrelevant (p : Platform) (k : Constants) (context : Context)
    (e1 e2 : Registry) :
    (FramebufferState.construct p k context e1).1 =
      (FramebufferState.construct p k context e2).1 := by
  cases p
  · rw [construct_fst_desktop, construct_fst_desktop]
  · rw [construct_fst_gles3, construct_fst_gles3]
  · rw [construct_fst_gles2, construct_fst_gles2]

/-- C14: for a fixed platform, two contexts that answer alike on the
extensions the constructor asks about on that platform (desktop:
`ARB_direct_state_access`, `EXT_direct_state_access`, `ARB_robustness`,
`ARB_invalidate_subdata`; ES3: `EXT_robustness`; ES2: `ANGLE_framebuffer_blit`,
`APPLE_framebuffer_multisample`, `NV_framebuffer_blit`,
`NV_framebuffer_multisample`, `EXT_robustness`,
`ANGLE_framebuffer_multisample`, `EXT_discard_framebuffer`) give the same
members and the same pushed identifiers, whatever they answer elsewhere. -/
theorem selection_depends_only_on_consulted (p : Platform) (k : Constants)
    (context₁ context₂ : Context) (extensions : Registry)
    (h : ∀ e ∈ consulted p,
      context₁.isExtensionSupported e = context₂.isExtensionSupported e) :
    (FramebufferState.construct p k context₁ extensions).1 =
      (FramebufferState.construct p k context₂ extensions).1
    ∧ appended p k context₁ extensions = appended p k context₂ extensions
    ∧ FramebufferState.construct p k context₁ extensions =
      FramebufferState.construct p k context₂ extensions := by
  have key : (FramebufferState.construct p k context₁ extensions).1 =
        (FramebufferState.construct p k context₂ extensions).1
      ∧ appended p k context₁ extensions = appended p k context₂ extensions := by
    cases p
    · simp only [consulted, List.mem_cons, List.mem_singleton, forall_eq_or_imp, forall_eq,
        List.not_mem_nil, false_implies, implies_true, and_true] at h
      obtain ⟨h1, h2, h3, h4⟩ := h
      rw [construct_fst_desktop, construct_fst_desktop, appended_desktop, appended_desktop,
        h1, h2, h3, h4]
      exact ⟨rfl, rfl⟩
    · simp only [consulted, List.mem_cons, List.mem_singleton, forall_eq_or_imp, forall_eq,
        List.not_mem_nil, false_implies, implies_true, and_true] at h
      rw [construct_fst_gles3, construct_fst_gles3, appended_gles3, appended_gles3, h]
      exact ⟨rfl, rfl⟩
    · simp only [consulted, List.mem_cons, List.mem_singleton, forall_eq_or_imp, forall_eq,
        List.not_mem_nil, false_implies, implies_true, and_true] at h
      obtain ⟨h1, h2, h3, h4, h5, h6, h7⟩ := h
      rw [construct_fst_gles2, construct_fst_gles2, appended_gles2, appended_gles2]
      simp [firstSupported, List.find?, h1, h2, h3, h4, h5, h6, h7]
  refine ⟨key.1, key.2, ?_⟩
  apply Prod.ext key.1
  rw [construct_snd_appended, construct_snd_appended, key.2]

/-- C14 at a concrete input: on ES2 two contexts that both support
`NV_framebuffer_blit` and differ on `ARB_direct_state_access` and on an
extension the constructor never names. -/
theorem selection_depends_only_on_consulted_witness :
    (∀ e ∈ consulted .gles2,
      (Context.ofList [.NV_framebuffer_blit]).isExtensionSupported e =
        (Context.ofList [.NV_framebuffer_blit, .ARB_direct_state_access,
          .other 7]).isExtensionSupported e)
    ∧ (Context.ofList [.NV_framebuffer_blit]).isExtensionSupported (.other 7) ≠
        (Context.ofList [.NV_framebuffer_blit, .ARB_direct_state_access,
          .other 7]).isExtensionSupported (.other 7)
    ∧ FramebufferState.construct .gles2 sampleConstants
        (Context.ofList [.NV_framebuffer_blit]) [] =
      FramebufferState.construct .gles2 sampleConstants
        (Context.ofList [.NV_framebuffer_blit, .ARB_direct_state_access, .other 7]) [] :=
  ⟨by decide, by decide,
    (selection_depends_only_on_consulted .gles2 sampleConstants
      (Context.ofList [.NV_framebuffer_blit])
      (Context.ofList [.NV_framebuffer_blit, .ARB_direct_state_access, .other 7]) []
      (by decide)).2.2⟩

/-- C15: the registry the constructor leaves is the registry it was given,
unchanged and in order, followed by the identifiers it pushed; and both the
pushed identifiers and the constructed members are the same whatever the
registry held at the start. -/
theorem registry_append_only (p : Platform) (k : Constants) (context : Context)
    (extensions extensions₂ : Registry) :
    (FramebufferState.construct p k context extensions).2 =
      extensions ++ appended p k context extensions
    ∧ extensions <+: (FramebufferState.construct p k context extensions).2
    ∧ appended p k context extensions = appended p k context extensions₂
    ∧ (FramebufferState.construct p k context extensions).1 =
      (FramebufferState.construct p k context extensions₂).1 := by
  refine ⟨construct_snd_appended p k context extensions, ?_, ?_,
    construct_fst_registry_irrelevant p k context extensions extensions₂⟩
  · rw [construct_snd_appended]
    exact List.prefix_append _ _
  · rw [appended_eq, appended_eq]

/-! ## Further claims about `reset()` and about ES2 -/

/-- C16: `reset()` leaves every one of the eighteen function-pointer members
and every cached limit (`maxDrawBuffers`, `maxColorAttachments`,
`maxRenderbufferSize`, `maxSamples`, `maxDualSourceDrawBuffers`) as it
was. -/
theorem reset_keeps_slots_and_limits (k : Constants) (s : FramebufferState) :
    (FramebufferState.reset k s).slots = s.slots
    ∧ (FramebufferState.reset k s).maxDrawBuffers = s.maxDrawBuffers
    ∧ (FramebufferState.reset k s).maxColorAttachments = s.maxColorAttachments
    ∧ (FramebufferState.reset k s).maxRenderbufferSize = s.maxRenderbufferSize
    ∧ (FramebufferState.reset k s).maxSamples = s.maxSamples
    ∧ (FramebufferState.reset k s).maxDualSourceDrawBuffers = s.maxDualSourceDrawBuffers
    ∧ FramebufferState.reset k s =
        { s with
          readBinding := k.DisengagedBinding
          drawBinding := k.DisengagedBinding
          renderbufferBinding := k.DisengagedBinding
          viewport := k.DisengagedViewport } :=
  ⟨rfl, rfl, rfl, rfl, rfl, rfl, rfl⟩

/-- C17: on ES2, whenever the blit member is not `nullptr`, the bind,
internal bind and status check members are the separate-target (default)
functions. The converse fails: with `ANGLE_framebuffer_blit` and
`NV_framebuffer_blit` unsupported and `APPLE_framebuffer_multisample` or
`NV_framebuffer_multisample` supported, the three members are the
separate-target functions while the blit member is `nullptr`. -/
theorem gles2_blit_implies_separate_targets (k : Constants) (context : Context)
    (extensions : Registry) :
    ((FramebufferState.construct .gles2 k context extensions).1.blitImplementation ≠ .null →
      [(FramebufferState.construct .gles2 k context extensions).1.bindImplementation,
       (FramebufferState.construct .gles2 k context extensions).1.bindInternalImplementation,
       (FramebufferState.construct .gles2 k context extensions).1.checkStatusImplementation] =
        [.fn .Framebuffer_bindImplementationDefault,
         .fn .Framebuffer_bindImplementationDefault,
         .fn .Framebuffer_checkStatusImplementationDefault])
    ∧ (context.isExtensionSupported .ANGLE_framebuffer_blit = false →
        context.isExtensionSupported .NV_framebuffer_blit = false →
        (context.isExtensionSupported .APPLE_framebuffer_multisample = true
          ∨ context.isExtensionSupported .NV_framebuffer_multisample = true) →
        [(FramebufferState.construct .gles2 k context extensions).1.bindImplementation,
         (FramebufferState.construct .gles2 k context
            extensions).1.bindInternalImplementation,
         (FramebufferState.construct .gles2 k context
            extensions).1.checkStatusImplementation] =
          [.fn .Framebuffer_bindImplementationDefault,
           .fn .Framebuffer_bindImplementationDefault,
           .fn .Framebuffer_checkStatusImplementationDefault]
        ∧ (FramebufferState.construct .gles2 k context extensions).1.blitImplementation =
            .null) := by
  rw [construct_fst_gles2]
  cases context.isExtensionSupported .ANGLE_framebuffer_blit <;>
  cases context.isExtensionSupported .APPLE_framebuffer_multisample <;>
  cases context.isExtensionSupported .NV_framebuffer_blit <;>
  cases context.isExtensionSupported .NV_framebuffer_multisample <;>
  simp

/-- C17 at concrete inputs: ES2 with `NV_framebuffer_blit` only (blit set,
separate targets) and with `APPLE_framebuffer_multisample` only (separate
targets, blit `nullptr`). -/
theorem gles2_blit_implies_separate_targets_witness :
    (FramebufferState.construct .gles2 sampleConstants
        (Context.ofList [.NV_framebuffer_blit]) []).1.blitImplementation ≠ .null
    ∧ [(FramebufferState.construct .gles2 sampleConstants
          (Context.ofList [.NV_framebuffer_blit]) []).1.bindImplementation,
       (FramebufferState.construct .gles2 sampleConstants
          (Context.ofList [.NV_framebuffer_blit]) []).1.bindInternalImplementation,
       (FramebufferState.construct .gles2 sampleConstants
          (Context.ofList [.NV_framebuffer_blit]) []).1.checkStatusImplementation] =
        [.fn .Framebuffer_bindImplementationDefault,
         .fn .Framebuffer_bindImplementationDefault,
         .fn .Framebuffer_checkStatusImplementationDefault]
    ∧ (FramebufferState.construct .gles2 sampleConstants
        (Context.ofList [.APPLE_framebuffer_multisample]) []).1.blitImplementation = .null
    ∧ (FramebufferState.construct .gles2 sampleConstants
        (Context.ofList [.APPLE_framebuffer_multisample]) []).1.bindImplementation =
      .fn .Framebuffer_bindImplementationDefault :=
  ⟨by decide,
    (gles2_blit_implies_separate_targets sampleConstants
      (Context.ofList [.NV_framebuffer_blit]) []).1 (by decide),
    by decide, by decide⟩

/-- C18: on ES2 the pushed identifiers can repeat. With
`ANGLE_framebuffer_blit` supported its identifier is pushed exactly twice;
with `NV_framebuffer_blit` supported and neither `ANGLE_framebuffer_blit` nor
`APPLE_framebuffer_multisample`, the `NV_framebuffer_blit` identifier is
pushed exactly twice; with `NV_framebuffer_multisample` supported and none of
`ANGLE_framebuffer_blit`, `APPLE_framebuffer_multisample`,
`NV_framebuffer_blit`, `ANGLE_framebuffer_multisample`, the
`NV_framebuffer_multisample` identifier is pushed exactly twice. On desktop
and on ES3 no identifier is pushed more than once. -/
theorem gles2_registry_repeats (k : Constants) (context : Context)
    (extensions : Registry) :
    (context.isExtensionSupported .ANGLE_framebuffer_blit = true →
      (appended .gles2 k context extensions).count .ANGLE_framebuffer_blit = 2
      ∧ ¬ (appended .gles2 k context extensions).Nodup)
    ∧ (context.isExtensionSupported .NV_framebuffer_blit = true →
        context.isExtensionSupported .ANGLE_framebuffer_blit = false →
        context.isExtensionSupported .APPLE_framebuffer_multisample = false →
        (appended .gles2 k context extensions).count .NV_framebuffer_blit = 2)
    ∧ (context.isExtensionSupported .NV_framebuffer_multisample = true →
        context.isExtensionSupported .ANGLE_framebuffer_blit = false →
        context.isExtensionSupported .APPLE_framebuffer_multisample = false →
        context.isExtensionSupported .NV_framebuffer_blit = false →
        context.isExtensionSupported .ANGLE_framebuffer_multisample = false →
        (appended .gles2 k context extensions).count .NV_framebuffer_multisample = 2)
    ∧ (appended .desktop k context extensions).Nodup
    ∧ (appended .gles3 k context extensions).Nodup := by
  rw [appended_gles2, appended_desktop, appended_gles3]
  simp only [firstSupported]
  refine ⟨?_, ?_, ?_, ?_, ?_⟩
  · intro h1
    cases h2 : context.isExtensionSupported .NV_framebuffer_multisample <;>
    cases h5 : context.isExtensionSupported .ANGLE_framebuffer_multisample <;>
    cases context.isExtensionSupported .EXT_robustness <;>
    cases context.isExtensionSupported .EXT_discard_framebuffer <;>
    simp [List.find?, h1, h2, h5]
  · intro h3 h1 h2
    cases h4 : context.isExtensionSupported .NV_framebuffer_multisample <;>
    cases h5 : context.isExtensionSupported .ANGLE_framebuffer_multisample <;>
    cases context.isExtensionSupported .EXT_robustness <;>
    cases context.isExtensionSupported .EXT_discard_framebuffer <;>
    simp [List.find?, h1, h2, h3, h4, h5]
  · intro h4 h1 h2 h3 h5
    cases context.isExtensionSupported .EXT_robustness <;>
    cases context.isExtensionSupported .EXT_discard_framebuffer <;>
    simp [List.find?, h1, h2, h3, h4, h5]
  · cases context.isExtensionSupported .ARB_direct_state_access <;>
    cases context.isExtensionSupported .EXT_direct_state_access <;>
    cases context.isExtensionSupported .ARB_robustness <;>
    cases context.isExtensionSupported .ARB_invalidate_subdata <;>
    decide
  · cases context.isExtensionSupported .EXT_robustness <;> decide

/-- C18 at a concrete input: ES2 with `NV_framebuffer_multisample` only,
where the binding section and the multisample storage section both push its
identifier. -/
theorem gles2_registry_repeats_witness :
    appended .gles2 sampleConstants (Context.ofList [.NV_framebuffer_multisample]) [] =
      [.NV_framebuffer_multisample, .NV_framebuffer_multisample]
    ∧ (appended .gles2 sampleConstants (Context.ofList [.NV_framebuffer_multisample])
        []).count .NV_framebuffer_multisample = 2 :=
  ⟨by decide,
    (gles2_registry_repeats sampleConstants (Context.ofList [.NV_framebuffer_multisample])
      []).2.2.1 (by decide) (by decide) (by decide) (by decide) (by decide)⟩

end Magnum
